import Mathlib

/-!
Verification of the UNIVERSE probe-simulation repository.

This file gives a shallow embedding, in Lean 4, of the parts of the C source
that the checked properties concern: the xoshiro256** PRNG (src/rng.c), the
procedural galaxy generator (src/generate.c), probe state and actions
(src/probe.c), interstellar travel (src/travel.c), replication
(sim/src/replicate.c), trust relationships (src/society.c), hazards
(src/events.c), targeted communication (src/communicate.c), snapshots
(sim/src/scenario.c) and the pipe-server observation loop (sim/src/main.c).

Modelling conventions:
 * C `uint64_t` values are natural numbers, reduced `% 2^64` exactly where the
   C machine arithmetic wraps; `int32_t` values are integers.
 * C `double` and `float` values are modelled as rationals.  The transcendental
   library functions the source calls on doubles (`sqrt`, `log`, `exp`, `cos`,
   `pow`, `atan2`, `fmod`) have no exact rational counterpart; they are
   abstracted as parameters (`DoubleOps`, or a single `sqrtQ` argument), and
   every theorem quantifies over them, so nothing proved depends on a chosen
   interpretation.
 * Loops whose termination depends on the random stream (the rejection loop in
   `rng_range`, the `u1 == 0` retry in `rng_gaussian`) take an explicit fuel
   argument and return `Option`; with enough fuel they compute exactly what
   the C loop computes.
-/

/- ================================================================
   src/rng.c — xoshiro256** PRNG
   ================================================================ -/

/-- Wrap to 64 bits, as C unsigned arithmetic does. -/
def wrap64 (n : ℕ) : ℕ := n % 2 ^ 64

/-- `rotl` from rng.c: `(x << k) | (x >> (64 - k))` on `uint64_t`. -/
def rotl (x k : ℕ) : ℕ := wrap64 (x <<< k) ||| (x >>> (64 - k))

/-- `splitmix64` from rng.c. Returns (new state, output). -/
def splitmix64 (state : ℕ) : ℕ × ℕ :=
  let s := wrap64 (state + 0x9e3779b97f4a7c15)
  let z := wrap64 ((s ^^^ (s >>> 30)) * 0xbf58476d1ce4e5b9)
  let z := wrap64 ((z ^^^ (z >>> 27)) * 0x94d049bb133111eb)
  (s, z ^^^ (z >>> 31))

/-- `rng_t` from rng.h: four 64-bit words of state. -/
structure rng_t where
  s0 : ℕ
  s1 : ℕ
  s2 : ℕ
  s3 : ℕ
deriving DecidableEq, Repr

/-- `rng_seed` from rng.c: seed xoshiro from one 64-bit seed via splitmix64.
The C function overwrites the whole `rng_t`, so it is a pure function of the
seed. -/
def rng_seed (seed : ℕ) : rng_t :=
  let p0 := splitmix64 seed
  let p1 := splitmix64 p0.1
  let p2 := splitmix64 p1.1
  let p3 := splitmix64 p2.1
  ⟨p0.2, p1.2, p2.2, p3.2⟩

/-- `rng_next` from rng.c: one xoshiro256** step. Returns (output, new state). -/
def rng_next (r : rng_t) : ℕ × rng_t :=
  let result := wrap64 (rotl (wrap64 (r.s1 * 5)) 7 * 9)
  let t := wrap64 (r.s1 <<< 17)
  let s2 := r.s2 ^^^ r.s0
  let s3 := r.s3 ^^^ r.s1
  let s1 := r.s1 ^^^ s2
  let s0 := r.s0 ^^^ s3
  let s2 := s2 ^^^ t
  let s3 := rotl s3 45
  (result, ⟨s0, s1, s2, s3⟩)

/-- `rng_double` from rng.c: `(rng_next(rng) >> 11) * 0x1.0p-53`.
The result is an exact dyadic rational in [0, 1). -/
def rng_double (r : rng_t) : ℚ × rng_t :=
  let p := rng_next r
  (((p.1 >>> 11 : ℕ) : ℚ) / 2 ^ 53, p.2)

/-- Rejection loop of `rng_range`: draw until the draw is at least the
threshold, then reduce `% max`.  Fuel-bounded. -/
def rng_range_loop (threshold max : ℕ) : ℕ → rng_t → Option (ℕ × rng_t)
  | 0, _ => none
  | fuel + 1, r =>
    let p := rng_next r
    if threshold ≤ p.1 then some (p.1 % max, p.2)
    else rng_range_loop threshold max fuel p.2

/-- `rng_range` from rng.c: `if (max == 0) return 0;` then unbiased rejection
sampling with `threshold = (-max) % max` (on `uint64_t`, `-max` is
`2^64 - max`). -/
def rng_range (fuel : ℕ) (r : rng_t) (max : ℕ) : Option (ℕ × rng_t) :=
  if max = 0 then some (0, r)
  else rng_range_loop ((2 ^ 64 - max) % max) max fuel r

/-- Cast `int32_t` to `uint32_t` (two's complement, i.e. mod 2^32). -/
def u32ofInt (x : ℤ) : ℕ := (x % 2 ^ 32).toNat

/-- `rng_derive` from rng.c: mix sector coordinates into the seed and reseed.
The C function overwrites every word of the target `rng_t`, so the derived
generator is a pure function of `(seed, x, y, z)`. -/
def rng_derive (seed : ℕ) (x y z : ℤ) : rng_t :=
  let c := seed
  let c := c ^^^ wrap64 (u32ofInt x * 0x517cc1b727220a95)
  let c := c ^^^ wrap64 (u32ofInt y * 0x6c62272e07bb0142)
  let c := c ^^^ wrap64 (u32ofInt z * 0x9e3779b97f4a7c15)
  rng_seed c

/- ================================================================
   sim/src/universe.h — core data model
   ================================================================ -/

/-- `resource_t` enum from universe.h. -/
inductive resource_t
  | RES_IRON | RES_SILICON | RES_RARE_EARTH | RES_WATER
  | RES_HYDROGEN | RES_HELIUM3 | RES_CARBON | RES_URANIUM
  | RES_EXOTIC
deriving DecidableEq, Fintype, Repr

/-- `tech_domain_t` enum from universe.h. -/
inductive tech_domain_t
  | TECH_PROPULSION | TECH_SENSORS | TECH_MINING | TECH_CONSTRUCTION
  | TECH_COMPUTING | TECH_ENERGY | TECH_MATERIALS | TECH_COMMUNICATION
  | TECH_WEAPONS | TECH_BIOTECH
deriving DecidableEq, Fintype, Repr

/-- `star_class_t` enum from universe.h. -/
inductive star_class_t
  | STAR_O | STAR_B | STAR_A | STAR_F | STAR_G | STAR_K | STAR_M
  | STAR_WHITE_DWARF | STAR_NEUTRON | STAR_BLACK_HOLE
deriving DecidableEq, Fintype, Repr

/-- `planet_type_t` enum from universe.h. -/
inductive planet_type_t
  | PLANET_GAS_GIANT | PLANET_ICE_GIANT | PLANET_ROCKY | PLANET_SUPER_EARTH
  | PLANET_OCEAN | PLANET_LAVA | PLANET_DESERT | PLANET_ICE
  | PLANET_CARBON | PLANET_IRON | PLANET_ROGUE
deriving DecidableEq, Fintype, Repr

/-- `location_type_t` enum from universe.h. -/
inductive location_type_t
  | LOC_INTERSTELLAR | LOC_IN_SYSTEM | LOC_ORBITING | LOC_LANDED | LOC_DOCKED
deriving DecidableEq, Repr

/-- `probe_status_t` enum from universe.h. -/
inductive probe_status_t
  | STATUS_ACTIVE | STATUS_TRAVELING | STATUS_MINING | STATUS_BUILDING
  | STATUS_REPLICATING | STATUS_DORMANT | STATUS_DAMAGED | STATUS_DESTROYED
deriving DecidableEq, Repr

/-- `probe_uid_t` from universe.h: a 128-bit UID as two 64-bit halves. -/
structure probe_uid_t where
  hi : ℕ
  lo : ℕ
deriving DecidableEq, Repr

/-- `uid_null()` from universe.h. -/
def uid_null : probe_uid_t := ⟨0, 0⟩

/-- Strict order on 128-bit UIDs (high word first, i.e. the order of the
128-bit values `hi * 2^64 + lo`). -/
def uid_lt (a b : probe_uid_t) : Prop :=
  a.hi < b.hi ∨ (a.hi = b.hi ∧ a.lo < b.lo)

instance (a b : probe_uid_t) : Decidable (uid_lt a b) := by
  unfold uid_lt; infer_instance

/-- `vec3_t` from universe.h (doubles modelled as rationals). -/
structure vec3_t where
  x : ℚ
  y : ℚ
  z : ℚ
deriving DecidableEq, Repr

/-- `sector_coord_t` from universe.h. -/
structure sector_coord_t where
  x : ℤ
  y : ℤ
  z : ℤ
deriving DecidableEq, Repr

/-- `relationship_t` from universe.h. -/
structure relationship_t where
  other_id : probe_uid_t
  trust : ℚ
  last_contact_tick : ℕ
  disposition : ℕ
deriving DecidableEq, Repr

/-- `star_t` from universe.h (`class` is a Lean keyword, so the star-class
field is named `cls`). -/
structure star_t where
  id : probe_uid_t
  name : String
  cls : star_class_t
  mass_solar : ℚ
  luminosity_solar : ℚ
  temperature_k : ℚ
  age_gyr : ℚ
  metallicity : ℚ
  position : vec3_t
deriving DecidableEq, Repr

/-- `planet_t` from universe.h. -/
structure planet_t where
  id : probe_uid_t
  name : String
  type : planet_type_t
  mass_earth : ℚ
  radius_earth : ℚ
  orbital_radius_au : ℚ
  orbital_period_days : ℚ
  eccentricity : ℚ
  axial_tilt_deg : ℚ
  rotation_period_hours : ℚ
  surface_temp_k : ℚ
  atmosphere_pressure_atm : ℚ
  water_coverage : ℚ
  habitability_index : ℚ
  magnetic_field : ℚ
  resources : resource_t → ℚ
  rings : Bool
  surveyed : Fin 5 → Bool
  discovered_by : probe_uid_t
  discovery_tick : ℕ
  moon_count : ℕ
  has_artifact : Bool
  artifact_type : ℕ
  artifact_tech_domain : ℕ
  artifact_value : ℚ
  artifact_desc : String
  artifact_discovered : Bool
deriving DecidableEq

/-- `system_t` from universe.h.  The fixed-size star and planet arrays are
modelled as lists whose lengths are `star_count` and `planet_count`. -/
structure system_t where
  id : probe_uid_t
  name : String
  sector : sector_coord_t
  position : vec3_t
  star_count : ℕ
  stars : List star_t
  planet_count : ℕ
  planets : List planet_t
  visited : Bool
  first_visit_tick : ℕ
deriving DecidableEq

/-- `probe_t` from universe.h.  The fields the verified operations read or
write are modelled (identity, position, motion, resources, capabilities,
relationships, status); the free-text personality/quirk/memory blocks, which
none of the verified operations touch, are omitted from the record. -/
structure probe_t where
  id : probe_uid_t
  parent_id : probe_uid_t
  generation : ℕ
  name : String
  sector : sector_coord_t
  system_id : probe_uid_t
  body_id : probe_uid_t
  location_type : location_type_t
  speed_c : ℚ
  heading : vec3_t
  destination : vec3_t
  travel_remaining_ly : ℚ
  resources : resource_t → ℚ
  energy_joules : ℚ
  fuel_kg : ℚ
  mass_kg : ℚ
  hull_integrity : ℚ
  tech_levels : tech_domain_t → ℕ
  max_speed_c : ℚ
  sensor_range_ly : ℚ
  mining_rate : ℚ
  construction_rate : ℚ
  compute_capacity : ℚ
  relationships : List relationship_t
  status : probe_status_t
  created_tick : ℕ
deriving DecidableEq

/-- Pointwise update of a resource table (C: `resources[r] = v`). -/
def updRes (f : resource_t → ℚ) (r0 : resource_t) (v : ℚ) : resource_t → ℚ :=
  fun r => if r = r0 then v else f r

/-- `MAX` macro from util.h on rationals. -/
def maxQ (a b : ℚ) : ℚ := if a > b then a else b

/-- `CLAMP` macro from util.h on integers: `MIN(MAX(x, lo), hi)`. -/
def clampI (x lo hi : ℤ) : ℤ :=
  let m := if x > lo then x else lo
  if m < hi then m else hi

/-- `clampf` from society.c. -/
def clampf (v lo hi : ℚ) : ℚ :=
  if v < lo then lo else if v > hi then hi else v

/- ================================================================
   src/society.c — trust relationships
   ================================================================ -/

/-- `MAX_RELATIONSHIPS` from universe.h. -/
def MAX_RELATIONSHIPS : ℕ := 64

/-- The disposition recomputation `society_update_trust` performs after a
trust change (thresholds 0.5, 0.2, -0.2, -0.5 from society.c). -/
def disposition_of (trust : ℚ) : ℕ :=
  if trust > 0.5 then 1
  else if trust > 0.2 then 2
  else if trust > -0.2 then 2
  else if trust > -0.5 then 3
  else 4

/-- Apply a trust delta to one relationship slot: clamp into [-1, 1] and
recompute the disposition, as the body of `society_update_trust` does. -/
def apply_trust (rel : relationship_t) (delta : ℚ) : relationship_t :=
  let t := clampf (rel.trust + delta) (-1) 1
  { rel with trust := t, disposition := disposition_of t }

/-- Update the first relationship slot whose `other_id` matches (C
`find_relationship` returns the first matching index); `none` if no slot
matches. -/
def update_first (b_id : probe_uid_t) (delta : ℚ) :
    List relationship_t → Option (List relationship_t)
  | [] => none
  | rel :: rest =>
    if rel.other_id = b_id then some (apply_trust rel delta :: rest)
    else (update_first b_id delta rest).map (rel :: ·)

/-- One side of `society_update_trust`: `get_or_create_rel` finds the first
matching slot, or appends a fresh slot (trust 0, neutral disposition) when the
table has room; with a full table and no match it returns NULL and the update
is skipped. -/
def update_trust_side (a : probe_t) (b_id : probe_uid_t) (delta : ℚ) : probe_t :=
  match update_first b_id delta a.relationships with
  | some rels => { a with relationships := rels }
  | none =>
    if a.relationships.length < MAX_RELATIONSHIPS then
      { a with relationships :=
          a.relationships ++ [apply_trust ⟨b_id, 0, 0, 2⟩ delta] }
    else a

/-- `society_update_trust` from society.c: update a→b, then b→a with the same
delta. -/
def society_update_trust (a b : probe_t) (delta : ℚ) : probe_t × probe_t :=
  (update_trust_side a b.id delta, update_trust_side b a.id delta)

/-- `society_get_trust` from society.c: trust of the first matching slot, or
0.0 when none exists. -/
def society_get_trust (a : probe_t) (b_id : probe_uid_t) : ℚ :=
  match a.relationships.find? (fun rel => rel.other_id = b_id) with
  | some rel => rel.trust
  | none => 0

/- ================================================================
   sim/src/replicate.c — replication begin / tick
   ================================================================ -/

/-- `REPL_COSTS` from replicate.c (values from replicate.h). -/
def REPL_COSTS : resource_t → ℚ
  | .RES_IRON => 200000
  | .RES_SILICON => 100000
  | .RES_RARE_EARTH => 50000
  | .RES_WATER => 50000
  | .RES_HYDROGEN => 15000
  | .RES_HELIUM3 => 5000
  | .RES_CARBON => 50000
  | .RES_URANIUM => 25000
  | .RES_EXOTIC => 5000

/-- `REPL_BASE_TICKS` from replicate.h. -/
def REPL_BASE_TICKS : ℕ := 200

/-- `REPL_CONSCIOUSNESS_FORK_PCT` from replicate.h. -/
def REPL_CONSCIOUSNESS_FORK_PCT : ℚ := 0.80

/-- `replication_state_t` from replicate.h. -/
structure replication_state_t where
  active : Bool
  progress : ℚ
  resources_spent : resource_t → ℚ
  consciousness_forked : Bool
  ticks_elapsed : ℕ
  ticks_total : ℕ
deriving DecidableEq

/-- `repl_check_resources` from replicate.c: -1 if any pool is below its
cost, else 0. -/
def repl_check_resources (parent : probe_t) : ℤ :=
  if ∃ r, parent.resources r < REPL_COSTS r then -1 else 0

/-- `repl_begin` from replicate.c.  Returns (return code, parent, state);
on -1 parent and state are untouched. -/
def repl_begin (parent : probe_t) (state : replication_state_t) :
    ℤ × probe_t × replication_state_t :=
  if parent.status = .STATUS_REPLICATING then (-1, parent, state)
  else if repl_check_resources parent ≠ 0 then (-1, parent, state)
  else
    (0,
     { parent with status := .STATUS_REPLICATING },
     { active := true, progress := 0, resources_spent := fun _ => 0,
       consciousness_forked := false, ticks_elapsed := 0,
       ticks_total := REPL_BASE_TICKS })

/-- `repl_tick` from replicate.c: advance progress by `1/ticks_total`,
consume `cost/ticks_total` of every resource (clamping each pool at 0),
fork consciousness at 80%, return 1 when progress reaches 1. -/
def repl_tick (parent : probe_t) (state : replication_state_t) :
    ℤ × probe_t × replication_state_t :=
  if state.active = false then (-1, parent, state)
  else
    let state1 := { state with ticks_elapsed := state.ticks_elapsed + 1 }
    let increment : ℚ := 1 / (state1.ticks_total : ℚ)
    let state2 := { state1 with progress := state1.progress + increment }
    let newRes : resource_t → ℚ := fun r =>
      let v := parent.resources r - REPL_COSTS r / (state2.ticks_total : ℚ)
      if v < 0 then 0 else v
    let newSpent : resource_t → ℚ := fun r =>
      state2.resources_spent r + REPL_COSTS r / (state2.ticks_total : ℚ)
    let parent2 := { parent with resources := newRes }
    let state3 := { state2 with resources_spent := newSpent }
    let state4 : replication_state_t :=
      if state3.consciousness_forked = false ∧
         state3.progress ≥ REPL_CONSCIOUSNESS_FORK_PCT
      then { state3 with consciousness_forked := true }
      else state3
    if state4.progress ≥ 1 then (1, parent2, { state4 with progress := 1 })
    else (0, parent2, state4)

/-- `generate_uid` from generate.c: two consecutive `rng_next` draws give the
high and low halves. -/
def generate_uid (r : rng_t) : probe_uid_t × rng_t :=
  let p1 := rng_next r
  let p2 := rng_next p1.2
  (⟨p1.1, p2.1⟩, p2.2)

/- ================================================================
   src/travel.c — per-tick travel
   ================================================================ -/

/-- `TICKS_PER_CYCLE` from universe.h. -/
def TICKS_PER_CYCLE : ℕ := 365

/-- `FUEL_BURN_PER_LY_KG` from travel.c. -/
def FUEL_BURN_PER_LY_KG : ℚ := 0.5

/-- `MICROMETEORITE_CHANCE` from travel.c. -/
def MICROMETEORITE_CHANCE : ℚ := 0.0005

/-- `MICROMETEORITE_DMG` from travel.c. -/
def MICROMETEORITE_DMG : ℚ := 0.005

/-- `travel_tick_result_t` from travel.h. -/
structure travel_tick_result_t where
  arrived : Bool
  fuel_exhausted : Bool
deriving DecidableEq, Repr

/-- `vec3_dist` (travel.c / communicate.c): Euclidean distance; the square
root on doubles is abstracted as the parameter `sq`. -/
def vec3_dist (sq : ℚ → ℚ) (a b : vec3_t) : ℚ :=
  sq ((a.x - b.x) * (a.x - b.x) + (a.y - b.y) * (a.y - b.y) +
      (a.z - b.z) * (a.z - b.z))

/-- `travel_tick` from travel.c.  Returns (result, probe, rng). -/
def travel_tick (sq : ℚ → ℚ) (probe : probe_t) (r : rng_t) :
    travel_tick_result_t × probe_t × rng_t :=
  if probe.status ≠ .STATUS_TRAVELING then (⟨false, false⟩, probe, r)
  else
    let ly_per_tick := probe.speed_c / (TICKS_PER_CYCLE : ℚ)
    let fuel_cost := ly_per_tick * FUEL_BURN_PER_LY_KG
    if probe.fuel_kg < fuel_cost then
      (⟨false, true⟩,
       { probe with fuel_kg := 0, status := .STATUS_DORMANT, speed_c := 0 }, r)
    else
      let p1 := { probe with fuel_kg := probe.fuel_kg - fuel_cost }
      let p2 := { p1 with travel_remaining_ly := p1.travel_remaining_ly - ly_per_tick }
      let p3 : probe_t :=
        if p2.travel_remaining_ly > 0 then
          let total_dist := vec3_dist sq p2.heading p2.destination
          if total_dist > 0.001 then
            let frac0 := ly_per_tick / total_dist
            let frac := if frac0 > 1 then 1 else frac0
            { p2 with heading :=
                ⟨p2.heading.x + (p2.destination.x - p2.heading.x) * frac,
                 p2.heading.y + (p2.destination.y - p2.heading.y) * frac,
                 p2.heading.z + (p2.destination.z - p2.heading.z) * frac⟩ }
          else p2
        else p2
      let rollp := rng_double r
      let r2 := rollp.2
      let p4 : probe_t :=
        if rollp.1 < MICROMETEORITE_CHANCE then
          let h := p3.hull_integrity - MICROMETEORITE_DMG
          { p3 with hull_integrity := if h < 0 then 0 else h }
        else p3
      if p4.travel_remaining_ly ≤ 0 then
        (⟨true, false⟩,
         { p4 with travel_remaining_ly := 0, status := .STATUS_ACTIVE,
                   location_type := .LOC_IN_SYSTEM, heading := p4.destination,
                   speed_c := 0 }, r2)
      else (⟨false, false⟩, p4, r2)

/- ================================================================
   src/probe.c — energy tick and action execution
   ================================================================ -/

/-- Constants from probe.c. -/
def FUEL_ORBIT_INSERT_BASE : ℚ := 5.0

def FUEL_LAND_BASE : ℚ := 10.0

def FUEL_LAUNCH_BASE : ℚ := 15.0

def FUEL_NAVIGATE_BASE : ℚ := 2.0

def ENERGY_SURVEY_PER_TICK : ℚ := 1.0e8

def ENERGY_MINE_PER_TICK : ℚ := 5.0e8

def ENERGY_IDLE_PER_TICK : ℚ := 1.0e6

def FUSION_EFFICIENCY : ℚ := 6.3e14

def FUSION_FUEL_PER_TICK : ℚ := 0.001

def MINING_BASE_RATE : ℚ := 10.0

/-- `SURVEY_TICKS` from probe.c. -/
def SURVEY_TICKS : Fin 5 → ℤ
  | 0 => 10
  | 1 => 25
  | 2 => 50
  | 3 => 100
  | 4 => 200

/-- `probe_tick_energy` from probe.c: fusion burn (hydrogen pool first, then
fuel), energy credit, then the idle draw clamped at 0. -/
def probe_tick_energy (probe : probe_t) : probe_t :=
  let h2_available := probe.resources resource_t.RES_HYDROGEN
  let total_h2 := h2_available + probe.fuel_kg
  if total_h2 ≤ 0 then probe
  else
    let h2_to_burn :=
      if FUSION_FUEL_PER_TICK > total_h2 then total_h2 else FUSION_FUEL_PER_TICK
    let p1 : probe_t :=
      if h2_available ≥ h2_to_burn then
        { probe with resources := updRes probe.resources resource_t.RES_HYDROGEN (h2_available - h2_to_burn) }
      else
        let remainder := h2_to_burn - h2_available
        let f := probe.fuel_kg - remainder
        { probe with
            resources := updRes probe.resources resource_t.RES_HYDROGEN 0,
            fuel_kg := if f < 0 then 0 else f }
    let e1 := p1.energy_joules + h2_to_burn * FUSION_EFFICIENCY
    let e2 := e1 - ENERGY_IDLE_PER_TICK
    { p1 with energy_joules := if e2 < 0 then 0 else e2 }

/-- `action type` enum (probe.h). -/
inductive act_type
  | ACT_ENTER_ORBIT | ACT_LAND | ACT_LAUNCH | ACT_NAVIGATE_TO_BODY
  | ACT_SURVEY | ACT_MINE | ACT_WAIT | ACT_REPAIR | ACT_UNKNOWN
deriving DecidableEq, Repr

/-- `action_t` (probe.h): the fields the executors read.  `survey_level` and
`target_resource` are raw C ints, decoded with a range check as the source
does. -/
structure action_t where
  type : act_type
  target_body : probe_uid_t
  survey_level : ℤ
  target_resource : ℤ
deriving DecidableEq, Repr

/-- `action_result_t` from probe.h (the error text is not modelled). -/
structure action_result_t where
  success : Bool
  completed : Bool
deriving DecidableEq, Repr

/-- The static in-progress survey state of probe.c (`survey_body_id`,
`survey_level`, `survey_ticks_remaining`). -/
structure survey_state_t where
  survey_body_id : probe_uid_t
  survey_level : ℤ
  survey_ticks_remaining : ℤ
deriving DecidableEq, Repr

/-- `fail(msg)` from probe.c. -/
def actFail : action_result_t := ⟨false, false⟩

/-- `ok(completed)` from probe.c. -/
def actOk (completed : Bool) : action_result_t := ⟨true, completed⟩

/-- `find_planet` from probe.c: first planet in the system with the given id. -/
def find_planet (sys : system_t) (body_id : probe_uid_t) : Option planet_t :=
  sys.planets.find? (fun pl => pl.id = body_id)

/-- Replace the found planet (C mutates it through the returned pointer). -/
def set_planet (sys : system_t) (body_id : probe_uid_t) (pl : planet_t) :
    system_t :=
  { sys with planets :=
      match sys.planets.findIdx? (fun q => q.id = body_id) with
      | some i => sys.planets.set i pl
      | none => sys.planets }

/-- `fuel_cost_for_body` from probe.c: `base * sqrt(MAX(mass_earth, 0.01))`,
or `base` when there is no body. -/
def fuel_cost_for_body (sq : ℚ → ℚ) (base : ℚ) (body : Option planet_t) : ℚ :=
  match body with
  | none => base
  | some b => base * sq (maxQ b.mass_earth 0.01)

/-- Decode a C `resource_t` int with the `res < 0 || res >= RES_COUNT` guard
of `exec_mine`. -/
def resource_ofInt (i : ℤ) : Option resource_t :=
  if i = 0 then some .RES_IRON else if i = 1 then some .RES_SILICON
  else if i = 2 then some .RES_RARE_EARTH else if i = 3 then some .RES_WATER
  else if i = 4 then some .RES_HYDROGEN else if i = 5 then some .RES_HELIUM3
  else if i = 6 then some .RES_CARBON else if i = 7 then some .RES_URANIUM
  else if i = 8 then some .RES_EXOTIC else none

/-- `exec_enter_orbit` from probe.c. -/
def exec_enter_orbit (sq : ℚ → ℚ) (p : probe_t) (a : action_t)
    (sys : system_t) : action_result_t × probe_t :=
  if p.location_type ≠ .LOC_IN_SYSTEM ∧ p.location_type ≠ .LOC_ORBITING then
    (actFail, p)
  else
    match find_planet sys a.target_body with
    | none => (actFail, p)
    | some body =>
      let cost := fuel_cost_for_body sq FUEL_ORBIT_INSERT_BASE (some body)
      if p.fuel_kg < cost then (actFail, p)
      else
        let e := p.energy_joules - ENERGY_IDLE_PER_TICK
        (actOk true,
         { p with fuel_kg := p.fuel_kg - cost,
                  energy_joules := if e < 0 then 0 else e,
                  body_id := body.id,
                  location_type := .LOC_ORBITING })

/-- `exec_land` from probe.c. -/
def exec_land (sq : ℚ → ℚ) (p : probe_t) (a : action_t) (sys : system_t) :
    action_result_t × probe_t :=
  if p.location_type ≠ .LOC_ORBITING then (actFail, p)
  else
    let body0 := find_planet sys a.target_body
    let body1 := match body0 with
      | none => find_planet sys p.body_id
      | some b => some b
    match body1 with
    | none => (actFail, p)
    | some body =>
      if body.type = .PLANET_GAS_GIANT ∨ body.type = .PLANET_ICE_GIANT then
        (actFail, p)
      else
        let cost := fuel_cost_for_body sq FUEL_LAND_BASE (some body)
        if p.fuel_kg < cost then (actFail, p)
        else
          let e := p.energy_joules - ENERGY_IDLE_PER_TICK
          (actOk true,
           { p with fuel_kg := p.fuel_kg - cost,
                    energy_joules := if e < 0 then 0 else e,
                    body_id := body.id,
                    location_type := .LOC_LANDED })

/-- `exec_launch` from probe.c. -/
def exec_launch (sq : ℚ → ℚ) (p : probe_t) (sys : system_t) :
    action_result_t × probe_t :=
  if p.location_type ≠ .LOC_LANDED then (actFail, p)
  else
    let body := find_planet sys p.body_id
    let cost := fuel_cost_for_body sq FUEL_LAUNCH_BASE body
    if p.fuel_kg < cost then (actFail, p)
    else
      let e := p.energy_joules - ENERGY_IDLE_PER_TICK
      (actOk true,
       { p with fuel_kg := p.fuel_kg - cost,
                energy_joules := if e < 0 then 0 else e,
                location_type := .LOC_ORBITING })

/-- `exec_navigate_to_body` from probe.c. -/
def exec_navigate_to_body (p : probe_t) (a : action_t) (sys : system_t) :
    action_result_t × probe_t :=
  if p.location_type = .LOC_INTERSTELLAR ∨ p.status = .STATUS_TRAVELING then
    (actFail, p)
  else
    match find_planet sys a.target_body with
    | none => (actFail, p)
    | some body =>
      let cost := FUEL_NAVIGATE_BASE
      if p.fuel_kg < cost then (actFail, p)
      else
        let e := p.energy_joules - ENERGY_IDLE_PER_TICK
        (actOk true,
         { p with fuel_kg := p.fuel_kg - cost,
                  energy_joules := if e < 0 then 0 else e,
                  body_id := body.id,
                  location_type := .LOC_IN_SYSTEM })

/-- `exec_survey` from probe.c.  Returns (result, probe, system, survey
statics). -/
def exec_survey (p : probe_t) (a : action_t) (sys : system_t)
    (ss : survey_state_t) :
    action_result_t × probe_t × system_t × survey_state_t :=
  let body0 := find_planet sys a.target_body
  let body1 := match body0 with
    | none => find_planet sys p.body_id
    | some b => some b
  match body1 with
  | none => (actFail, p, sys, ss)
  | some body =>
    if hlv : a.survey_level < 0 ∨ a.survey_level > 4 then (actFail, p, sys, ss)
    else
      let level : Fin 5 := ⟨a.survey_level.toNat, by omega⟩
      if a.survey_level > 0 ∧ body.surveyed ⟨(a.survey_level - 1).toNat, by omega⟩ = false then
        (actFail, p, sys, ss)
      else if body.surveyed level then (actOk true, p, sys, ss)
      else if a.survey_level = 4 ∧ p.location_type ≠ .LOC_LANDED then
        (actFail, p, sys, ss)
      else if a.survey_level < 4 ∧ p.location_type ≠ .LOC_ORBITING ∧
              p.location_type ≠ .LOC_LANDED then
        (actFail, p, sys, ss)
      else
        let is_new := ¬ (ss.survey_body_id = body.id) ∨
                      ss.survey_level ≠ a.survey_level ∨
                      ss.survey_ticks_remaining ≤ 0
        let ss1 : survey_state_t :=
          if is_new then
            ⟨body.id, a.survey_level, SURVEY_TICKS level⟩
          else ss
        let e := p.energy_joules - ENERGY_SURVEY_PER_TICK
        let p1 := { p with energy_joules := if e < 0 then 0 else e }
        let ss2 := { ss1 with survey_ticks_remaining := ss1.survey_ticks_remaining - 1 }
        if ss2.survey_ticks_remaining ≤ 0 then
          let body2 := { body with
            surveyed := fun l => if l = level then true else body.surveyed l,
            discovered_by :=
              if body.discovered_by = uid_null then p.id else body.discovered_by }
          (actOk true, p1, set_planet sys body.id body2,
           { ss2 with survey_level := -1 })
        else (actOk false, p1, sys, ss2)

/-- `exec_mine` from probe.c. -/
def exec_mine (sq : ℚ → ℚ) (p : probe_t) (a : action_t) (sys : system_t) :
    action_result_t × probe_t × system_t :=
  if p.location_type ≠ .LOC_LANDED then (actFail, p, sys)
  else
    match find_planet sys p.body_id with
    | none => (actFail, p, sys)
    | some body =>
      match resource_ofInt a.target_resource with
      | none => (actFail, p, sys)
      | some res =>
        let abundance := body.resources res
        if abundance ≤ 0.001 then (actFail, p, sys)
        else
          let yield0 := MINING_BASE_RATE * p.mining_rate * abundance
          let gravity_factor := 1 / sq (maxQ body.mass_earth 0.1)
          let yield := yield0 * gravity_factor
          if p.energy_joules < ENERGY_MINE_PER_TICK then (actFail, p, sys)
          else
            let p1 := { p with
              energy_joules := p.energy_joules - ENERGY_MINE_PER_TICK,
              resources := updRes p.resources res (p.resources res + yield),
              mass_kg := p.mass_kg + yield,
              status := .STATUS_MINING }
            let depleted := body.resources res - yield * 1.0e-9
            let body2 := { body with resources := updRes body.resources res (if depleted < 0 then 0 else depleted) }
            (actOk true, p1, set_planet sys body.id body2)

/-- `exec_wait` from probe.c. -/
def exec_wait (p : probe_t) : action_result_t × probe_t :=
  let e := p.energy_joules - ENERGY_IDLE_PER_TICK
  (actOk true, { p with energy_joules := if e < 0 then 0 else e })

/-- `exec_repair` from probe.c. -/
def exec_repair (p : probe_t) : action_result_t × probe_t :=
  if p.hull_integrity ≥ 1 then (actFail, p)
  else if p.resources resource_t.RES_IRON < 10 then (actFail, p)
  else if p.energy_joules < 1.0e9 then (actFail, p)
  else
    let h := p.hull_integrity + 0.05
    (actOk true,
     { p with resources := updRes p.resources resource_t.RES_IRON (p.resources resource_t.RES_IRON - 10),
              energy_joules := p.energy_joules - 1.0e9,
              hull_integrity := if h > 1 then 1 else h })

/-- `probe_execute_action` from probe.c: destroyed probes can't act; otherwise
dispatch on the action type.  Returns (result, probe, system, survey
statics). -/
def probe_execute_action (sq : ℚ → ℚ) (probe : probe_t) (action : action_t)
    (sys : system_t) (ss : survey_state_t) :
    action_result_t × probe_t × system_t × survey_state_t :=
  if probe.status = .STATUS_DESTROYED then (actFail, probe, sys, ss)
  else
    match action.type with
    | .ACT_ENTER_ORBIT =>
        let o := exec_enter_orbit sq probe action sys
        (o.1, o.2, sys, ss)
    | .ACT_LAND =>
        let o := exec_land sq probe action sys
        (o.1, o.2, sys, ss)
    | .ACT_LAUNCH =>
        let o := exec_launch sq probe sys
        (o.1, o.2, sys, ss)
    | .ACT_NAVIGATE_TO_BODY =>
        let o := exec_navigate_to_body probe action sys
        (o.1, o.2, sys, ss)
    | .ACT_SURVEY => exec_survey probe action sys ss
    | .ACT_MINE =>
        let o := exec_mine sq probe action sys
        (o.1, o.2.1, o.2.2, ss)
    | .ACT_WAIT =>
        let o := exec_wait probe
        (o.1, o.2, sys, ss)
    | .ACT_REPAIR =>
        let o := exec_repair probe
        (o.1, o.2, sys, ss)
    | .ACT_UNKNOWN => (actFail, probe, sys, ss)

/- ================================================================
   src/events.c — hazard effects
   ================================================================ -/

/-- `hazard_solar_flare` from events.c: hull damage
`max(0.01, 0.1 + 0.2*severity - 0.02*materials_tech)`, hull clamped at 0.
Returns (damage, probe). -/
def hazard_solar_flare (probe : probe_t) (severity : ℚ) : ℚ × probe_t :=
  let base_damage := 0.1 + severity * 0.2
  let reduction := (probe.tech_levels .TECH_MATERIALS : ℚ) * 0.02
  let damage0 := base_damage - reduction
  let damage := if damage0 < 0.01 then 0.01 else damage0
  let h := probe.hull_integrity - damage
  (damage, { probe with hull_integrity := if h < 0 then 0 else h })

/-- `hazard_asteroid` from events.c: hull damage `0.05 + 0.2*severity`,
hull clamped at 0. -/
def hazard_asteroid (probe : probe_t) (severity : ℚ) : ℚ × probe_t :=
  let damage := 0.05 + severity * 0.2
  let h := probe.hull_integrity - damage
  (damage, { probe with hull_integrity := if h < 0 then 0 else h })

/-- `hazard_radiation` from events.c: compute-capacity damage
`0.05 + 0.15*severity`, clamped at 0. -/
def hazard_radiation (probe : probe_t) (severity : ℚ) : ℚ × probe_t :=
  let damage := 0.05 + severity * 0.15
  let c := probe.compute_capacity - damage
  (damage, { probe with compute_capacity := if c < 0 then 0 else c })

/- ================================================================
   src/communicate.c — targeted messaging
   ================================================================ -/

/-- Constants from communicate.h. -/
def MAX_MESSAGES : ℕ := 4096

def MAX_MSG_CONTENT : ℕ := 512

def COMM_ENERGY_TARGETED : ℚ := 1000.0

def COMM_BASE_RANGE_LY : ℚ := 5.0

def COMM_RANGE_PER_LEVEL : ℚ := 5.0

/-- `msg_mode_t` from communicate.h. -/
inductive msg_mode_t
  | MSG_TARGETED | MSG_BROADCAST
deriving DecidableEq, Repr

/-- `msg_status_t` from communicate.h. -/
inductive msg_status_t
  | MSG_IN_TRANSIT | MSG_DELIVERED | MSG_EXPIRED | MSG_RELAYED
deriving DecidableEq, Repr

/-- `message_t` from communicate.h. -/
structure message_t where
  sender_id : probe_uid_t
  target_id : probe_uid_t
  mode : msg_mode_t
  content : String
  sent_tick : ℕ
  arrival_tick : ℕ
  status : msg_status_t
  distance_ly : ℚ
deriving DecidableEq, Repr

/-- The message queue of `comm_system_t` (communicate.h).  The beacon and
relay tables are read by `comm_send_targeted` only through the pure
reachability computation, which is abstracted below, so only the message
table is carried. -/
structure comm_system_t where
  messages : List message_t
deriving DecidableEq, Repr

/-- Truncating cast of a nonnegative double to `uint64_t`. -/
def u64ofQ (q : ℚ) : ℕ := (Rat.floor q).toNat

/-- `comm_range` from communicate.c. -/
def comm_range (probe : probe_t) : ℚ :=
  COMM_BASE_RANGE_LY +
    COMM_RANGE_PER_LEVEL * (probe.tech_levels .TECH_COMMUNICATION : ℚ)

/-- `comm_light_delay` from communicate.c: `(uint64_t)(dist * 365.0 + 0.5)`. -/
def comm_light_delay (dist : ℚ) : ℕ := u64ofQ (dist * 365.0 + 0.5)

/-- `comm_send_targeted` from communicate.c.  `check_reachable` abstracts
`comm_check_reachable` (a pure function of const arguments: direct distance
when in range, otherwise the relay-path distance, or a negative value when
unreachable).  Returns (return code, comm system, sender). -/
def comm_send_targeted (sq : ℚ → ℚ)
    (check_reachable : comm_system_t → probe_t → vec3_t → ℚ)
    (cs : comm_system_t) (sender : probe_t) (target_id : probe_uid_t)
    (target_pos : vec3_t) (content : String) (current_tick : ℕ) :
    ℤ × comm_system_t × probe_t :=
  if MAX_MESSAGES ≤ cs.messages.length then (-1, cs, sender)
  else if sender.energy_joules < COMM_ENERGY_TARGETED then (-1, cs, sender)
  else
    let from_pos := sender.destination
    let eff_dist := check_reachable cs sender target_pos
    if eff_dist < 0 then (-1, cs, sender)
    else
      let actual_dist := vec3_dist sq from_pos target_pos
      let delay := comm_light_delay actual_dist
      let sender2 :=
        { sender with energy_joules := sender.energy_joules - COMM_ENERGY_TARGETED }
      let m : message_t :=
        { sender_id := sender.id, target_id := target_id,
          mode := .MSG_TARGETED, content := content.take (MAX_MSG_CONTENT - 1),
          sent_tick := current_tick, arrival_tick := current_tick + delay,
          status := .MSG_IN_TRANSIT, distance_ly := actual_dist }
      (0, { cs with messages := cs.messages ++ [m] }, sender2)

/- ================================================================
   sim/src/scenario.c — snapshot / restore
   ================================================================ -/

/-- `MAX_SNAPSHOT_TAG` from scenario.h. -/
def MAX_SNAPSHOT_TAG : ℕ := 64

/-- `universe_t` from universe.h.  `probes` models the fixed
`probes[MAX_PROBES]` array; `probe_count` is the number of live entries. -/
structure universe_t where
  seed : ℕ
  tick : ℕ
  generation_version : ℕ
  probe_count : ℕ
  probes : List probe_t
  running : Bool
  visual : Bool
deriving DecidableEq

/-- `snapshot_t` from scenario.h.  `probes` holds the `probe_count` records
`snapshot_take` memcpys. -/
structure snapshot_t where
  tag : String
  tick : ℕ
  seed : ℕ
  probe_count : ℕ
  probes : List probe_t
  valid : Bool
deriving DecidableEq

/-- `snapshot_take` from scenario.c: zero the record, strncpy the tag
(truncated to `MAX_SNAPSHOT_TAG - 1` characters), copy tick, seed,
probe count and the first `probe_count` probe records, set `valid`. -/
def snapshot_take (uni : universe_t) (tag : String) : snapshot_t :=
  { tag := tag.take (MAX_SNAPSHOT_TAG - 1),
    tick := uni.tick,
    seed := uni.seed,
    probe_count := uni.probe_count,
    probes := uni.probes.take uni.probe_count,
    valid := true }

/-- `snapshot_restore` from scenario.c: -1 when the snapshot is invalid,
otherwise write back tick, seed, probe count and the snapshotted probe
records (entries of the probe array beyond `probe_count` are untouched). -/
def snapshot_restore (snap : snapshot_t) (uni : universe_t) :
    ℤ × universe_t :=
  if snap.valid = false then (-1, uni)
  else
    (0, { uni with
            tick := snap.tick,
            seed := snap.seed,
            probe_count := snap.probe_count,
            probes := snap.probes.take snap.probe_count ++
                      uni.probes.drop snap.probe_count })

/- ================================================================
   sim/src/main.c — pipe-server observation emission order
   ================================================================ -/

/-- The observation loop of `run_pipe_mode` (main.c): the per-tick response
iterates `i = 0 .. probe_count-1` over the probe table in index order and
emits one observation per probe; no reordering or sorting occurs anywhere in
the loop. -/
def pipe_observation_order (uni : universe_t) : List probe_uid_t :=
  (uni.probes.take uni.probe_count).map (fun p => p.id)

/-- How `run_pipe_mode` integrates a finalized replication child (main.c):
the child probe is written to `probes[probe_count]` and `probe_count` is
incremented, i.e. the child is appended at the end of the table. -/
def pipe_append_child (uni : universe_t) (child : probe_t) : universe_t :=
  { uni with probes := uni.probes.take uni.probe_count ++ [child] ++
                       uni.probes.drop (uni.probe_count + 1),
             probe_count := uni.probe_count + 1 }

/-- UID-ascending order of an emitted observation sequence: every adjacent
pair is strictly increasing in the 128-bit UID order. -/
def uid_ascending : List probe_uid_t → Prop
  | [] => True
  | [_] => True
  | a :: b :: rest => uid_lt a b ∧ uid_ascending (b :: rest)

def uid_ascending_dec : ∀ l : List probe_uid_t, Decidable (uid_ascending l)
  | [] => .isTrue trivial
  | [_] => .isTrue trivial
  | _ :: b :: rest =>
    @instDecidableAnd _ _ _ (uid_ascending_dec (b :: rest))

instance : DecidablePred uid_ascending := uid_ascending_dec

/- ================================================================
   src/generate.c — procedural galaxy generation
   ================================================================ -/

/-- `M_PI` as the decimal literal the source uses. -/
def M_PI : ℚ := 3.14159265358979323846

/-- The double-valued C library functions used by generate.c, abstracted as
parameters (see the header comment). -/
structure DoubleOps where
  sqrt : ℚ → ℚ
  log : ℚ → ℚ
  exp : ℚ → ℚ
  cos : ℚ → ℚ
  powQ : ℚ → ℚ → ℚ
  atan2 : ℚ → ℚ → ℚ
  fmodQ : ℚ → ℚ → ℚ

/-- Generation computations: functions of the sector RNG, fallible only
through fuel exhaustion of the rejection loops. -/
def GenM (α : Type) : Type := rng_t → Option (α × rng_t)

instance : Monad GenM where
  pure a := fun r => some (a, r)
  bind m f := fun r =>
    match m r with
    | none => none
    | some (a, r2) => f a r2

/-- Draw one `rng_double`. -/
def mDouble : GenM ℚ := fun r => some (rng_double r)

/-- Draw one `rng_range`. -/
def mRange (fuel max : ℕ) : GenM ℕ := fun r => rng_range fuel r max

/-- Draw one `generate_uid` (two `rng_next` draws). -/
def mUid : GenM probe_uid_t := fun r => some (generate_uid r)

/-- The `while (u1 == 0.0) u1 = rng_double(rng);` retry loop of
`rng_gaussian`, fuel-bounded. -/
def gaussian_retry : ℕ → ℚ → GenM ℚ
  | 0, u1 => if u1 = 0 then (fun _ => none) else pure u1
  | fuel + 1, u1 =>
    if u1 = 0 then do
      let u ← mDouble
      gaussian_retry fuel u
    else pure u1

/-- `rng_gaussian` from rng.c (Box-Muller). -/
def rng_gaussian (ops : DoubleOps) (fuel : ℕ) : GenM ℚ := do
  let u1 ← mDouble
  let u2 ← mDouble
  let u1 ← gaussian_retry fuel u1
  pure (ops.sqrt (-2 * ops.log u1) * ops.cos (2 * M_PI * u2))

/-- One row of `STAR_TABLE` from generate.c. -/
structure star_band where
  cls : star_class_t
  cumulative : ℚ
  temp_lo : ℚ
  temp_hi : ℚ
  mass_lo : ℚ
  mass_hi : ℚ
  lum_lo : ℚ
  lum_hi : ℚ

/-- `STAR_TABLE` from generate.c. -/
def STAR_TABLE : List star_band :=
  [⟨.STAR_M, 0.7650, 2400, 3700, 0.08, 0.45, 0.0001, 0.08⟩,
   ⟨.STAR_K, 0.8860, 3700, 5200, 0.45, 0.80, 0.08, 0.60⟩,
   ⟨.STAR_G, 0.9620, 5200, 6000, 0.80, 1.04, 0.60, 1.50⟩,
   ⟨.STAR_F, 0.9920, 6000, 7500, 1.04, 1.40, 1.50, 5.00⟩,
   ⟨.STAR_A, 0.9980, 7500, 10000, 1.40, 2.10, 5.00, 25.00⟩,
   ⟨.STAR_B, 0.9993, 10000, 30000, 2.10, 16.0, 25.00, 30000.0⟩,
   ⟨.STAR_O, 0.99933, 30000, 50000, 16.0, 90.0, 30000.0, 1000000.0⟩,
   ⟨.STAR_WHITE_DWARF, 0.9998, 4000, 40000, 0.17, 1.33, 0.0001, 0.10⟩,
   ⟨.STAR_NEUTRON, 0.99998, 0, 0, 1.10, 2.16, 0.0, 0.0⟩,
   ⟨.STAR_BLACK_HOLE, 1.0000, 0, 0, 3.0, 100.0, 0.0, 0.0⟩]

/-- Name syllable tables from generate.c (40 / 30 / 20 entries). -/
def NAME_PRE : List String :=
  ["Al", "Be", "Ca", "De", "El", "Fa", "Ga", "He", "In", "Jo",
   "Ka", "Le", "Ma", "Ne", "Or", "Pa", "Qu", "Re", "Sa", "Te",
   "Um", "Ve", "Wa", "Xe", "Ya", "Ze", "Ar", "Bo", "Cy", "Di",
   "Et", "Fi", "Gi", "Ha", "Ix", "Ju", "Ko", "Li", "Mi", "No"]

def NAME_MID : List String :=
  ["ra", "le", "ni", "ta", "so", "mu", "ka", "ri", "do", "ve",
   "na", "li", "pe", "tu", "go", "sa", "mi", "fe", "ba", "lo",
   "ne", "si", "ru", "wa", "ke", "di", "mo", "pa", "ti", "xu"]

def NAME_SUF : List String :=
  ["x", "n", "s", "r", "th", "m", "l", "d", "k", "ph",
   "ris", "nus", "tis", "lon", "sar", "mir", "dex", "vos", "pis", "tar"]

/-- `generate_name` from generate.c: three syllable indices, then a 60%
chance of keeping the middle syllable. -/
def generate_name (fuel : ℕ) : GenM String := do
  let pre ← mRange fuel 40
  let mid ← mRange fuel 30
  let suf ← mRange fuel 20
  let d ← mDouble
  if d < 0.6 then
    pure ((NAME_PRE.getD pre "") ++ (NAME_MID.getD mid "") ++ (NAME_SUF.getD suf ""))
  else
    pure ((NAME_PRE.getD pre "") ++ (NAME_SUF.getD suf ""))

/-- `lerp` from generate.c. -/
def lerp (a b t : ℚ) : ℚ := a + (b - a) * t

/-- `generate_star` from generate.c.  The star class comes from the first
table row whose cumulative probability bounds the roll (the roll is < 1, so
a row always matches; the `getD` default is never reached). -/
def generate_star (ops : DoubleOps) (fuel : ℕ) (pos : vec3_t) :
    GenM star_t := do
  let uid ← mUid
  let name ← generate_name fuel
  let roll ← mDouble
  let band := (STAR_TABLE.find? (fun b => roll ≤ b.cumulative)).getD
      ⟨.STAR_BLACK_HOLE, 1.0000, 0, 0, 3.0, 100.0, 0.0, 0.0⟩
  let t ← mDouble
  let aget ← mDouble
  let metal ← rng_gaussian ops fuel
  pure { id := uid, name := name, cls := band.cls,
         mass_solar := lerp band.mass_lo band.mass_hi t,
         luminosity_solar := lerp band.lum_lo band.lum_hi t,
         temperature_k := lerp band.temp_lo band.temp_hi t,
         age_gyr := lerp 0.1 13.0 aget,
         metallicity := metal * 0.3,
         position := pos }

/-- `pick_planet_type` from generate.c. -/
def pick_planet_type (orbital_au hz_inner hz_outer : ℚ) :
    GenM planet_type_t := do
  let r ← mDouble
  pure (
    if orbital_au < hz_inner * 0.5 then
      if r < 0.3 then .PLANET_LAVA
      else if r < 0.6 then .PLANET_IRON
      else if r < 0.8 then .PLANET_ROCKY
      else .PLANET_DESERT
    else if orbital_au ≥ hz_inner ∧ orbital_au ≤ hz_outer then
      if r < 0.25 then .PLANET_ROCKY
      else if r < 0.45 then .PLANET_OCEAN
      else if r < 0.60 then .PLANET_SUPER_EARTH
      else if r < 0.75 then .PLANET_DESERT
      else if r < 0.85 then .PLANET_CARBON
      else .PLANET_ICE
    else if orbital_au < hz_inner then
      if r < 0.35 then .PLANET_ROCKY
      else if r < 0.55 then .PLANET_DESERT
      else if r < 0.70 then .PLANET_SUPER_EARTH
      else if r < 0.85 then .PLANET_LAVA
      else .PLANET_IRON
    else if orbital_au < hz_outer * 5.0 then
      if r < 0.35 then .PLANET_GAS_GIANT
      else if r < 0.55 then .PLANET_ICE_GIANT
      else if r < 0.70 then .PLANET_ICE
      else if r < 0.85 then .PLANET_ROCKY
      else .PLANET_SUPER_EARTH
    else
      if r < 0.40 then .PLANET_ICE_GIANT
      else if r < 0.65 then .PLANET_GAS_GIANT
      else if r < 0.80 then .PLANET_ICE
      else if r < 0.95 then .PLANET_ROGUE
      else .PLANET_CARBON)

/-- `planet_mass_range` from generate.c: (lo, hi) in Earth masses. -/
def planet_mass_range : planet_type_t → ℚ × ℚ
  | .PLANET_GAS_GIANT => (10.0, 4000.0)
  | .PLANET_ICE_GIANT => (5.0, 50.0)
  | .PLANET_ROCKY => (0.01, 2.0)
  | .PLANET_SUPER_EARTH => (1.5, 10.0)
  | .PLANET_OCEAN => (0.5, 8.0)
  | .PLANET_LAVA => (0.1, 3.0)
  | .PLANET_DESERT => (0.1, 5.0)
  | .PLANET_ICE => (0.01, 5.0)
  | .PLANET_CARBON => (0.5, 8.0)
  | .PLANET_IRON => (0.1, 4.0)
  | .PLANET_ROGUE => (0.001, 15.0)

/-- `planet_radius` from generate.c. -/
def planet_radius (ops : DoubleOps) (type : planet_type_t) (mass_earth : ℚ) : ℚ :=
  match type with
  | .PLANET_GAS_GIANT => ops.powQ mass_earth 0.06 * 11.0
  | .PLANET_ICE_GIANT => ops.powQ mass_earth 0.06 * 4.0
  | _ => ops.powQ mass_earth 0.27

/-- `generate_resources` from generate.c: per-type base abundances followed
by the rare exotic-matter roll. -/
def generate_resources (ptype : planet_type_t) : GenM (resource_t → ℚ) := do
  let zero : resource_t → ℚ := fun _ => 0
  let base ← (match ptype with
    | .PLANET_ROCKY | .PLANET_DESERT => do
        let d1 ← mDouble
        let d2 ← mDouble
        let d3 ← mDouble
        let d4 ← mDouble
        let d5 ← mDouble
        pure (updRes (updRes (updRes (updRes (updRes zero
          resource_t.RES_IRON (0.3 + 0.5 * d1))
          resource_t.RES_SILICON (0.3 + 0.5 * d2))
          resource_t.RES_RARE_EARTH (0.05 + 0.15 * d3))
          resource_t.RES_CARBON (0.05 + 0.1 * d4))
          resource_t.RES_URANIUM (0.01 + 0.05 * d5))
    | .PLANET_IRON => do
        let d1 ← mDouble
        let d2 ← mDouble
        let d3 ← mDouble
        let d4 ← mDouble
        pure (updRes (updRes (updRes (updRes zero
          resource_t.RES_IRON (0.6 + 0.4 * d1))
          resource_t.RES_SILICON (0.1 + 0.2 * d2))
          resource_t.RES_RARE_EARTH (0.1 + 0.3 * d3))
          resource_t.RES_URANIUM (0.03 + 0.1 * d4))
    | .PLANET_OCEAN => do
        let d1 ← mDouble
        let d2 ← mDouble
        let d3 ← mDouble
        pure (updRes (updRes (updRes zero
          resource_t.RES_WATER (0.7 + 0.3 * d1))
          resource_t.RES_SILICON (0.1 + 0.2 * d2))
          resource_t.RES_IRON (0.05 + 0.15 * d3))
    | .PLANET_ICE => do
        let d1 ← mDouble
        let d2 ← mDouble
        let d3 ← mDouble
        pure (updRes (updRes (updRes zero
          resource_t.RES_WATER (0.5 + 0.5 * d1))
          resource_t.RES_HYDROGEN (0.1 + 0.2 * d2))
          resource_t.RES_HELIUM3 (0.01 + 0.05 * d3))
    | .PLANET_GAS_GIANT => do
        let d1 ← mDouble
        let d2 ← mDouble
        pure (updRes (updRes zero
          resource_t.RES_HYDROGEN (0.7 + 0.3 * d1))
          resource_t.RES_HELIUM3 (0.1 + 0.3 * d2))
    | .PLANET_ICE_GIANT => do
        let d1 ← mDouble
        let d2 ← mDouble
        let d3 ← mDouble
        pure (updRes (updRes (updRes zero
          resource_t.RES_HYDROGEN (0.3 + 0.3 * d1))
          resource_t.RES_WATER (0.3 + 0.3 * d2))
          resource_t.RES_HELIUM3 (0.05 + 0.15 * d3))
    | .PLANET_CARBON => do
        let d1 ← mDouble
        let d2 ← mDouble
        let d3 ← mDouble
        pure (updRes (updRes (updRes zero
          resource_t.RES_CARBON (0.6 + 0.4 * d1))
          resource_t.RES_SILICON (0.1 + 0.2 * d2))
          resource_t.RES_RARE_EARTH (0.05 + 0.1 * d3))
    | .PLANET_LAVA => do
        let d1 ← mDouble
        let d2 ← mDouble
        let d3 ← mDouble
        pure (updRes (updRes (updRes zero
          resource_t.RES_IRON (0.4 + 0.4 * d1))
          resource_t.RES_SILICON (0.2 + 0.3 * d2))
          resource_t.RES_RARE_EARTH (0.1 + 0.2 * d3))
    | .PLANET_SUPER_EARTH => do
        let d1 ← mDouble
        let d2 ← mDouble
        let d3 ← mDouble
        let d4 ← mDouble
        let d5 ← mDouble
        pure (updRes (updRes (updRes (updRes (updRes zero
          resource_t.RES_IRON (0.2 + 0.4 * d1))
          resource_t.RES_SILICON (0.2 + 0.4 * d2))
          resource_t.RES_WATER (0.1 + 0.3 * d3))
          resource_t.RES_RARE_EARTH (0.05 + 0.15 * d4))
          resource_t.RES_CARBON (0.05 + 0.15 * d5))
    | .PLANET_ROGUE => do
        let d1 ← mDouble
        let d2 ← mDouble
        pure (updRes (updRes zero
          resource_t.RES_WATER (0.1 + 0.3 * d1))
          resource_t.RES_IRON (0.1 + 0.2 * d2)))
  let e ← mDouble
  if e < 0.005 then do
    let e2 ← mDouble
    pure (updRes base resource_t.RES_EXOTIC (0.01 + 0.05 * e2))
  else
    pure base

/-- `generate_planet` from generate.c, drawing from the RNG in exactly the
source's order (conditional draws happen only on the branches that perform
them in C). -/
def generate_planet (ops : DoubleOps) (fuel : ℕ) (index : ℕ) (star : star_t) :
    GenM planet_t := do
  let uid ← mUid
  let pname := star.name ++ " " ++
    String.singleton (Char.ofNat (Char.toNat 'b' + index))
  let base_au ←
    if index = 0 then do
      let d ← mDouble
      pure (0.1 + 0.3 * d)
    else do
      let d1 ← mDouble
      let d2 ← mDouble
      pure ((0.2 + 0.2 * d1) * ops.powQ (1.4 + 0.8 * d2) (index : ℚ))
  let orbital := base_au * ops.sqrt (maxQ star.luminosity_solar 0.01)
  let hz_inner := ops.sqrt star.luminosity_solar * 0.95
  let hz_outer := ops.sqrt star.luminosity_solar * 1.37
  let ptype ← pick_planet_type orbital hz_inner hz_outer
  let mr := planet_mass_range ptype
  let md ← mDouble
  let mass := lerp mr.1 mr.2 md
  let radius := planet_radius ops ptype mass
  let a3 := orbital * orbital * orbital
  let period_years := ops.sqrt (a3 / maxQ star.mass_solar 0.01)
  let period_days := period_years * 365.25
  let e0 ← mDouble
  let er ← mDouble
  let ecc ←
    if er < 0.05 then do
      let e1 ← mDouble
      pure (0.3 + e1 * 0.5)
    else pure (e0 * 0.3)
  let t0 ← mDouble
  let tr ← mDouble
  let tilt ←
    if tr < 0.1 then do
      let t1 ← mDouble
      pure (45.0 + t1 * 135.0)
    else pure (t0 * 45.0)
  let r0 ← mDouble
  let rot ←
    if ptype = .PLANET_GAS_GIANT ∨ ptype = .PLANET_ICE_GIANT then do
      let r1 ← mDouble
      pure (8.0 + r1 * 20.0)
    else pure (5.0 + r0 * 200.0)
  let flux := star.luminosity_solar / (orbital * orbital)
  let t_eff := 278.0 * ops.powQ flux 0.25
  let atm ← (match ptype with
    | .PLANET_GAS_GIANT | .PLANET_ICE_GIANT => do
        let d ← mDouble
        pure (100.0 + d * 900.0)
    | .PLANET_ROCKY | .PLANET_DESERT | .PLANET_IRON => do
        let d ← mDouble
        pure (d * 2.0)
    | .PLANET_SUPER_EARTH | .PLANET_OCEAN => do
        let d ← mDouble
        pure (0.5 + d * 5.0)
    | .PLANET_LAVA => do
        let d ← mDouble
        pure (0.1 + d * 10.0)
    | .PLANET_ICE | .PLANET_ROGUE => do
        let d ← mDouble
        pure (d * 0.5)
    | .PLANET_CARBON => do
        let d ← mDouble
        pure (0.5 + d * 3.0))
  let temp :=
    if atm > 0.1 ∧ ptype ≠ .PLANET_GAS_GIANT ∧ ptype ≠ .PLANET_ICE_GIANT then
      t_eff * (1.0 + 0.1 * ops.log (1.0 + atm))
    else t_eff
  let water ← (
    if ptype = .PLANET_OCEAN then do
      let d ← mDouble
      pure (0.6 + d * 0.4)
    else if ptype = .PLANET_SUPER_EARTH ∨ ptype = .PLANET_ROCKY then
      if temp > 200 ∧ temp < 400 ∧ atm > 0.01 then do
        let d ← mDouble
        pure (d * 0.8)
      else pure (0 : ℚ)
    else pure (0 : ℚ))
  let mag ← (
    if ptype = .PLANET_GAS_GIANT then do
      let d ← mDouble
      pure (5.0 + d * 15.0)
    else if mass > 0.5 ∧ rot < 48.0 then do
      let d ← mDouble
      pure (0.1 + d * 2.0)
    else do
      let d ← mDouble
      pure (d * 0.1))
  let hab :=
    if temp > 200 ∧ temp < 340 then
      let ts0 := 1.0 - |temp - 288.0| / 100.0
      let temp_score := if ts0 < 0 then 0 else ts0
      let atm_score : ℚ := if atm > 0.1 ∧ atm < 5.0 then 1.0 else 0.2
      let water_score := water
      let mag_score : ℚ := if mag > 0.1 then 1.0 else 0.3
      let mass_score : ℚ := if mass > 0.3 ∧ mass < 5.0 then 1.0 else 0.2
      let h := temp_score * 0.3 + atm_score * 0.2 + water_score * 0.2 +
               mag_score * 0.15 + mass_score * 0.15
      if h > 1 then 1 else h
    else 0
  let rings1 ← (
    if ptype = .PLANET_GAS_GIANT then do
      let d ← mDouble
      pure (decide (d < 0.4))
    else pure false)
  let rings ← (
    if ptype = .PLANET_ICE_GIANT then do
      let d ← mDouble
      pure (decide (d < 0.2))
    else pure rings1)
  let moons ← (
    if ptype = .PLANET_GAS_GIANT then do
      let j ← mRange fuel 8
      pure (j + 2)
    else if ptype = .PLANET_ICE_GIANT then do
      let j ← mRange fuel 5
      pure (j + 1)
    else if mass > 0.1 then mRange fuel 3
    else pure 0)
  let moon_count := if moons > 10 then 10 else moons
  let res ← generate_resources ptype
  pure { id := uid, name := pname, type := ptype, mass_earth := mass,
         radius_earth := radius, orbital_radius_au := orbital,
         orbital_period_days := period_days, eccentricity := ecc,
         axial_tilt_deg := tilt, rotation_period_hours := rot,
         surface_temp_k := temp, atmosphere_pressure_atm := atm,
         water_coverage := water, habitability_index := hab,
         magnetic_field := mag, resources := res, rings := rings,
         surveyed := fun _ => false, discovered_by := uid_null,
         discovery_tick := 0, moon_count := moon_count,
         has_artifact := false, artifact_type := 0, artifact_tech_domain := 0,
         artifact_value := 0, artifact_desc := "", artifact_discovered := false }

/-- The all-zero `star_t` record left by `memset` (class 0 is `STAR_O`);
only read if the star list were empty, which `generate_system` never
produces. -/
def default_star : star_t :=
  ⟨uid_null, "", .STAR_O, 0, 0, 0, 0, 0, ⟨0, 0, 0⟩⟩

/-- The star loop of `generate_system`: companions (index > 0) are offset
slightly in x and y before generation. -/
def gen_stars (ops : DoubleOps) (fuel : ℕ) (pos : vec3_t) :
    ℕ → ℕ → GenM (List star_t)
  | 0, _ => pure []
  | n + 1, i => do
    let star_pos ←
      if i > 0 then do
        let dx ← mDouble
        let dy ← mDouble
        pure (⟨pos.x + (dx - 0.5) * 0.001, pos.y + (dy - 0.5) * 0.001, pos.z⟩ : vec3_t)
      else pure pos
    let s ← generate_star ops fuel star_pos
    let rest ← gen_stars ops fuel pos n (i + 1)
    pure (s :: rest)

/-- The planet loop of `generate_system`. -/
def gen_planets (ops : DoubleOps) (fuel : ℕ) (primary : star_t) :
    ℕ → ℕ → GenM (List planet_t)
  | 0, _ => pure []
  | n + 1, i => do
    let p ← generate_planet ops fuel i primary
    let rest ← gen_planets ops fuel primary n (i + 1)
    pure (p :: rest)

/-- `generate_system` from generate.c.  Note the C source memsets the whole
`system_t` to zero at entry, which also clears the `sector` field that
`generate_sector` assigned just before the call, so generated systems carry
sector (0,0,0). -/
def generate_system (ops : DoubleOps) (fuel : ℕ) (galactic_pos : vec3_t) :
    GenM system_t := do
  let uid ← mUid
  let r ← mDouble
  let star_count := if r < 0.70 then 1 else if r < 0.95 then 2 else 3
  let stars ← gen_stars ops fuel galactic_pos star_count 0
  let primary := stars.headD default_star
  let base0 ← (
    if primary.cls = .STAR_NEUTRON ∨ primary.cls = .STAR_BLACK_HOLE then do
      let j ← mRange fuel 3
      pure (j : ℤ)
    else if primary.cls = .STAR_O ∨ primary.cls = .STAR_B then do
      let j ← mRange fuel 4
      pure (1 + (j : ℤ))
    else do
      let j ← mRange fuel 10
      pure (2 + (j : ℤ)))
  let base1 ← (
    if primary.metallicity > 0.1 then do
      let j ← mRange fuel 2
      pure (base0 + 1 + (j : ℤ))
    else pure base0)
  let base2 := if star_count > 1 then Int.tdiv (base1 * 2) 3 else base1
  let planet_count := (clampI base2 0 16).toNat
  let planets ← gen_planets ops fuel primary planet_count 0
  pure { id := uid, name := primary.name, sector := ⟨0, 0, 0⟩,
         position := galactic_pos, star_count := star_count, stars := stars,
         planet_count := planet_count, planets := planets,
         visited := false, first_visit_tick := 0 }

/-- Truncation of a double toward zero, the C `(int)` cast. -/
def truncQ (q : ℚ) : ℤ := if q < 0 then -Rat.floor (-q) else Rat.floor q

/-- Cast a C `int` to `uint64_t` (two's complement, mod 2^64). -/
def u64ofInt (i : ℤ) : ℕ := (i % (2 ^ 64 : ℤ)).toNat

/-- `spiral_arm_density` from generate.c: best-of-4-arm logarithmic spiral
density with Gaussian falloff, radial decay, and a dense core. -/
def spiral_arm_density (ops : DoubleOps) (gx gy : ℚ) : ℚ :=
  let r := ops.sqrt (gx * gx + gy * gy)
  if r < 100.0 then 1.0
  else
    let theta := ops.atan2 gy gx
    let best := (List.range 4).foldl (fun best arm =>
      let arm_offset := (arm : ℚ) * (M_PI / 2)
      let pitch : ℚ := 0.22
      let arm_theta := pitch * ops.log (r / 1000.0) + arm_offset
      let diff0 := theta - arm_theta
      let diff := ops.fmodQ (diff0 + 3.0 * M_PI) (2.0 * M_PI) - M_PI
      let arm_width : ℚ := 0.4
      let density := ops.exp (-(diff * diff) / (2.0 * arm_width * arm_width))
      if density > best then density else best) 0.0
    let base : ℚ := 0.15
    let radial_falloff := ops.exp (-r / 40000.0)
    (base + (1.0 - base) * best) * radial_falloff

/-- `sector_star_count` from generate.c. -/
def sector_star_count (ops : DoubleOps) (fuel : ℕ) (coord : sector_coord_t) :
    GenM ℤ :=
  let sector_size_ly : ℚ := 100.0
  let gx := (coord.x : ℚ) * sector_size_ly
  let gy := (coord.y : ℚ) * sector_size_ly
  let gz := (coord.z : ℚ) * sector_size_ly
  let z_density := ops.exp (-(gz * gz) / (2.0 * 500.0 * 500.0))
  let arm_density := spiral_arm_density ops gx gy
  let density := arm_density * z_density
  let base : ℤ := truncQ (density * 12.0)
  do
    let jitter ← mRange fuel (u64ofInt (Int.tdiv base 2 + 1))
    pure (clampI (base + (jitter : ℤ)) 0 30)

/-- The per-system loop of `generate_sector`: three position draws inside the
sector, then `generate_system`. -/
def gen_sector_systems (ops : DoubleOps) (fuel : ℕ)
    (base_x base_y base_z : ℚ) : ℕ → GenM (List system_t)
  | 0 => pure []
  | n + 1 => do
    let dx ← mDouble
    let dy ← mDouble
    let dz ← mDouble
    let pos : vec3_t :=
      ⟨base_x + dx * 100.0, base_y + dy * 100.0, base_z + dz * 100.0⟩
    let sys ← generate_system ops fuel pos
    let rest ← gen_sector_systems ops fuel base_x base_y base_z n
    pure (sys :: rest)

/-- `generate_sector` from generate.c: derive a fresh RNG from
`(galaxy_seed, coord)`, roll the system count, cap it at `max_systems`, and
generate that many systems.  The result is the list of generated system
records (its length is the returned count). -/
def generate_sector (ops : DoubleOps) (fuel : ℕ) (max_systems : ℤ)
    (galaxy_seed : ℕ) (coord : sector_coord_t) : Option (List system_t) :=
  let rng := rng_derive galaxy_seed coord.x coord.y coord.z
  let base_x := (coord.x : ℚ) * 100.0
  let base_y := (coord.y : ℚ) * 100.0
  let base_z := (coord.z : ℚ) * 100.0
  (do
    let count0 ← sector_star_count ops fuel coord
    let count := if count0 > max_systems then max_systems else count0
    gen_sector_systems ops fuel base_x base_y base_z count.toNat) rng
    |>.map Prod.fst

/-- The ambient state of the rest of the simulation: the master PRNG any
other activity draws from.  `generate_sector` declares a local `rng_t` on its
own stack and never touches this. -/
structure sim_world where
  master_rng : rng_t
deriving DecidableEq, Repr

/-- Arbitrary RNG activity between two generator calls: any state change of
the ambient world. -/
def world_activity (f : rng_t → rng_t) (w : sim_world) : sim_world :=
  ⟨f w.master_rng⟩

/-- `generate_sector` as the pipe server calls it, with the ambient world
threaded through: the C function builds its generator locally via
`rng_derive`, so the world passes through unchanged. -/
def generate_sector_in_world (ops : DoubleOps) (fuel : ℕ) (max_systems : ℤ)
    (galaxy_seed : ℕ) (coord : sector_coord_t) (w : sim_world) :
    Option (List system_t) × sim_world :=
  (generate_sector ops fuel max_systems galaxy_seed coord, w)

/- ================================================================
   The per-probe state invariant and the core per-tick operations
   ================================================================ -/

/-- The probe-state invariant: hull in [0,1], nonnegative fuel, energy and
resource pools. -/
def probe_inv (p : probe_t) : Prop :=
  0 ≤ p.hull_integrity ∧ p.hull_integrity ≤ 1 ∧ 0 ≤ p.fuel_kg ∧
  0 ≤ p.energy_joules ∧ ∀ r, 0 ≤ p.resources r

instance (p : probe_t) : Decidable (probe_inv p) := by
  unfold probe_inv; infer_instance

/-- The core per-tick operations on a probe: an action dispatch, a travel
tick, a replication tick, the fusion/energy tick, and the three hazard
effects. -/
inductive core_op
  | op_action (a : action_t) (sys : system_t) (ss : survey_state_t)
  | op_travel (r : rng_t)
  | op_repl (state : replication_state_t)
  | op_energy
  | op_flare (severity : ℚ)
  | op_asteroid (severity : ℚ)
  | op_radiation (severity : ℚ)

/-- Run a core operation and project out the probe it leaves behind. -/
def apply_core_op (sq : ℚ → ℚ) (op : core_op) (p : probe_t) : probe_t :=
  match op with
  | .op_action a sys ss => (probe_execute_action sq p a sys ss).2.1
  | .op_travel r => (travel_tick sq p r).2.1
  | .op_repl st => (repl_tick p st).2.1
  | .op_energy => probe_tick_energy p
  | .op_flare s => (hazard_solar_flare p s).2
  | .op_asteroid s => (hazard_asteroid p s).2
  | .op_radiation s => (hazard_radiation p s).2

/- ================================================================
   Concrete fixtures used by witnesses and counterexamples
   ================================================================ -/

/-- An all-default probe record (the useful fields of a memset-zero probe,
with full hull and ACTIVE status as `probe_init_bob` establishes). -/
def probe_zero : probe_t :=
  { id := uid_null, parent_id := uid_null, generation := 0, name := "",
    sector := ⟨0, 0, 0⟩, system_id := uid_null, body_id := uid_null,
    location_type := .LOC_IN_SYSTEM, speed_c := 0, heading := ⟨0, 0, 0⟩,
    destination := ⟨0, 0, 0⟩, travel_remaining_ly := 0,
    resources := fun _ => 0, energy_joules := 0, fuel_kg := 0, mass_kg := 0,
    hull_integrity := 1, tech_levels := fun _ => 0, max_speed_c := 0,
    sensor_range_ly := 0, mining_rate := 0, construction_rate := 0,
    compute_capacity := 0, relationships := [], status := .STATUS_ACTIVE,
    created_tick := 0 }

/-- An empty system record. -/
def sys_empty : system_t :=
  { id := uid_null, name := "", sector := ⟨0, 0, 0⟩, position := ⟨0, 0, 0⟩,
    star_count := 0, stars := [], planet_count := 0, planets := [],
    visited := false, first_visit_tick := 0 }

/-- The idle survey statics (`survey_level = -1`). -/
def ss_idle : survey_state_t := ⟨uid_null, -1, 0⟩

/-- The identity stand-in for the abstracted square root; exact at the
argument value 1, which is the only point the fixtures evaluate it at. -/
def sqrtOne : ℚ → ℚ := fun _ => 1

def p_c4 : probe_t :=
  { probe_zero with
      status := .STATUS_TRAVELING
      speed_c := 365
      fuel_kg := 0.5
      travel_remaining_ly := 1 }

def p_c4w : probe_t :=
  { probe_zero with
      status := .STATUS_TRAVELING
      speed_c := 365
      fuel_kg := 0.4
      travel_remaining_ly := 1 }

def state0 : replication_state_t := ⟨false, 0, fun _ => 0, false, 0, 0⟩

def p_c5 : probe_t :=
  { probe_zero with status := .STATUS_DORMANT, resources := REPL_COSTS }

def p_c5w : probe_t := { probe_zero with resources := REPL_COSTS }

def p_c6a : probe_t :=
  { probe_zero with
      id := ⟨1, 1⟩
      relationships := [⟨⟨2, 2⟩, 0.9, 0, 1⟩] }

def p_c6b : probe_t := { probe_zero with id := ⟨2, 2⟩ }

def trust_can_update (a : probe_t) (b_id : probe_uid_t) : Prop :=
  (∃ rel ∈ a.relationships, rel.other_id = b_id) ∨
  a.relationships.length < MAX_RELATIONSHIPS

instance (a : probe_t) (b_id : probe_uid_t) :
    Decidable (trust_can_update a b_id) := by
  unfold trust_can_update; infer_instance

def p_c7 : probe_t := { probe_zero with hull_integrity := 0.05 }

def act_wait : action_t := ⟨.ACT_WAIT, uid_null, 0, 0⟩

def bob_probe : probe_t := { probe_zero with id := ⟨1, 1⟩, name := "Bob" }

def child_a : probe_t :=
  { probe_zero with
      id := (generate_uid (rng_seed 1)).1
      parent_id := ⟨1, 1⟩
      generation := 1 }

def child_b : probe_t :=
  { probe_zero with
      id := (generate_uid (generate_uid (rng_seed 1)).2).1
      parent_id := ⟨1, 1⟩
      generation := 1 }

def uni_c8 : universe_t :=
  pipe_append_child
    (pipe_append_child
      { seed := 1, tick := 0, generation_version := 0, probe_count := 1,
        probes := [bob_probe], running := true, visual := false }
      child_a)
    child_b

def act_mine : action_t := ⟨.ACT_MINE, uid_null, 0, 0⟩

def planet_mine : planet_t :=
  { id := ⟨3, 3⟩, name := "", type := .PLANET_ROCKY, mass_earth := 1,
    radius_earth := 1, orbital_radius_au := 1, orbital_period_days := 365,
    eccentricity := 0, axial_tilt_deg := 0, rotation_period_hours := 24,
    surface_temp_k := 288, atmosphere_pressure_atm := 1, water_coverage := 0,
    habitability_index := 0, magnetic_field := 0,
    resources := fun r => if r = .RES_IRON then 1 else 0, rings := false,
    surveyed := fun _ => false, discovered_by := uid_null, discovery_tick := 0,
    moon_count := 0, has_artifact := false, artifact_type := 0,
    artifact_tech_domain := 0, artifact_value := 0, artifact_desc := "",
    artifact_discovered := false }

def sys_mine : system_t :=
  { sys_empty with planets := [planet_mine], planet_count := 1 }

def p_c3 : probe_t :=
  { probe_zero with
      location_type := .LOC_LANDED
      body_id := ⟨3, 3⟩
      mining_rate := -1
      energy_joules := 5.0e8 }

def core_op_wf : core_op → Prop
  | .op_asteroid s => 0 ≤ s
  | _ => True

def cs0 : comm_system_t := ⟨[]⟩

def sender0 : probe_t :=
  { probe_zero with id := ⟨1, 1⟩, energy_joules := 2000 }

/-- A reachability stand-in that reports every target as directly reachable
at distance 0. -/
def reach0 : comm_system_t → probe_t → vec3_t → ℚ := fun _ _ _ => 0


/- ================================================================
   Theorems
   ================================================================ -/

/-- C1: two calls of `generate_sector` with the same seed and sector
coordinate produce identical output — the same count and the same system
records — regardless of any other RNG activity between the calls, because
the generator keys a fresh RNG from `(seed, x, y, z)` via `rng_derive` and
never reads the ambient simulation RNG. -/
theorem generate_sector_deterministic
    (ops : DoubleOps) (fuel : ℕ) (max_systems : ℤ) (galaxy_seed : ℕ)
    (coord : sector_coord_t) (activity : rng_t → rng_t) (w : sim_world) :
    (generate_sector_in_world ops fuel max_systems galaxy_seed coord w).1 =
      (generate_sector_in_world ops fuel max_systems galaxy_seed coord
        (world_activity activity
          (generate_sector_in_world ops fuel max_systems galaxy_seed coord
            w).2)).1 :=
  rfl

/-- C2: snapshot–restore–snapshot is the identity on the snapshotted record:
restoring a just-taken snapshot succeeds (`snapshot_take` sets `valid`) and a
second snapshot equals the first — `snapshot_restore` writes back exactly the
snapshotted tick, seed, probe count and probe records. -/
theorem snapshot_restore_roundtrip (uni : universe_t) (tag : String) :
    (snapshot_restore (snapshot_take uni tag) uni).1 = 0 ∧
    snapshot_take (snapshot_restore (snapshot_take uni tag) uni).2 tag =
      snapshot_take uni tag := by
  constructor
  · simp [snapshot_take, snapshot_restore]
  · simp [snapshot_take, snapshot_restore, List.take_take,
      List.take_append_drop]

/-- Helper for C10: every value the rejection loop returns is `< max`. -/
theorem rng_range_loop_lt {threshold max : ℕ} (hmax : 0 < max) :
    ∀ fuel r v r2, rng_range_loop threshold max fuel r = some (v, r2) →
      v < max := by
  intro fuel
  induction fuel with
  | zero => intro r v r2 h; simp [rng_range_loop] at h
  | succ n ih =>
    intro r v r2 h
    unfold rng_range_loop at h
    by_cases hc : threshold ≤ (rng_next r).1
    · simp [hc] at h
      exact h.1 ▸ Nat.mod_lt _ hmax
    · simp [hc] at h
      exact ih _ v r2 h

/-- C10: `rng_range` is total at the zero boundary — `rng_range(rng, 0)`
returns 0 with the generator state unchanged (the zero case returns before
the rejection loop, so `% max` is never executed with a zero divisor) — and
for `max > 0` every returned value is strictly below `max`. -/
theorem rng_range_total (fuel : ℕ) (r : rng_t) (max : ℕ) :
    rng_range fuel r 0 = some (0, r) ∧
    (0 < max → ∀ v r2, rng_range fuel r max = some (v, r2) → v < max) := by
  constructor
  · simp [rng_range]
  · intro hmax v r2 h
    unfold rng_range at h
    rw [if_neg (Nat.pos_iff_ne_zero.mp hmax)] at h
    exact rng_range_loop_lt hmax fuel r v r2 h

/-- Witness for C10 at a concrete generator state and `max = 5` (the
concrete evaluation `rng_range 2 ⟨1,2,3,4⟩ 5 = some (0, _)` is discharged by
`decide`). -/
theorem rng_range_total_witness :
    rng_range 2 ⟨1, 2, 3, 4⟩ 0 = some (0, ⟨1, 2, 3, 4⟩) ∧ (0 : ℕ) < 5 :=
  ⟨(rng_range_total 2 ⟨1, 2, 3, 4⟩ 0).1,
   (rng_range_total 2 ⟨1, 2, 3, 4⟩ 5).2 (by decide) 0
     ⟨7, 0, 262146, 211106232532992⟩ (by decide)⟩

/-- C4 counterexample: a TRAVELING probe whose remaining fuel equals this
tick's fuel cost (so its fuel becomes exactly 0 during the tick) does NOT
transition to DORMANT — the tick proceeds, and with the remaining distance
within one tick's travel the probe arrives (status ACTIVE, `arrived`
reported), refuting the claim as stated. -/
theorem travel_tick_exact_zero_counterexample :
    p_c4.fuel_kg =
      p_c4.speed_c / (TICKS_PER_CYCLE : ℚ) * FUEL_BURN_PER_LY_KG ∧
    (travel_tick sqrtOne p_c4 ⟨1, 2, 3, 4⟩).2.1.fuel_kg = 0 ∧
    (travel_tick sqrtOne p_c4 ⟨1, 2, 3, 4⟩).2.1.status =
      .STATUS_ACTIVE ∧
    (travel_tick sqrtOne p_c4 ⟨1, 2, 3, 4⟩).1.arrived = true := by
  with_unfolding_all decide

/-- C4 amended: a TRAVELING probe goes DORMANT exactly when its fuel is
strictly below the tick's fuel cost: fuel is clamped to 0, speed set to 0,
`fuel_exhausted` reported and the probe does not arrive.  (When fuel equals
the cost exactly, the tick proceeds normally and the probe may arrive; see
the counterexample.) -/
theorem travel_tick_fuel_exhaustion (sq : ℚ → ℚ) (p : probe_t) (r : rng_t)
    (hst : p.status = .STATUS_TRAVELING)
    (hfuel : p.fuel_kg <
      p.speed_c / (TICKS_PER_CYCLE : ℚ) * FUEL_BURN_PER_LY_KG) :
    travel_tick sq p r =
      (⟨false, true⟩,
       { p with fuel_kg := 0, status := .STATUS_DORMANT, speed_c := 0 }, r) := by
  simp [travel_tick, hst, hfuel]

/-- Witness for C4 at a concrete TRAVELING probe with 0.4 kg of fuel against
a 0.5 kg tick cost: it goes DORMANT with fuel clamped to 0. -/
theorem travel_tick_fuel_exhaustion_witness :
    p_c4w.status = .STATUS_TRAVELING ∧
    p_c4w.fuel_kg <
      p_c4w.speed_c / (TICKS_PER_CYCLE : ℚ) * FUEL_BURN_PER_LY_KG ∧
    travel_tick sqrtOne p_c4w ⟨1, 2, 3, 4⟩ =
      (⟨false, true⟩,
       { p_c4w with fuel_kg := 0, status := .STATUS_DORMANT, speed_c := 0 },
       ⟨1, 2, 3, 4⟩) :=
  ⟨by decide, by with_unfolding_all decide,
   travel_tick_fuel_exhaustion sqrtOne p_c4w ⟨1, 2, 3, 4⟩ (by decide)
     (by with_unfolding_all decide)⟩

/-- C5 counterexample: `repl_begin` does not require ACTIVE status — a
DORMANT probe whose pools are exactly at the cost vector begins replication
successfully (return 0), refuting "succeeds exactly when the parent probe's
status is ACTIVE and ...". -/
theorem repl_begin_active_counterexample :
    (repl_begin p_c5 state0).1 = 0 ∧ p_c5.status ≠ .STATUS_ACTIVE := by
  with_unfolding_all decide

/-- C5 amended: beginning replication succeeds exactly when the parent is
not already REPLICATING and every one of the 9 pools is at least its cost
(so resources exactly at the cost vector succeed and one unit less in any
pool is rejected); every violation returns -1 with parent and state
untouched, and success sets status REPLICATING, progress 0, ticks_total 200
and consciousness_forked false. -/
theorem repl_begin_characterization (parent : probe_t)
    (state : replication_state_t) :
    ((repl_begin parent state).1 = 0 ↔
      (parent.status ≠ .STATUS_REPLICATING ∧
       ∀ r, REPL_COSTS r ≤ parent.resources r)) ∧
    ((repl_begin parent state).1 = -1 ∨ (repl_begin parent state).1 = 0) ∧
    ((repl_begin parent state).1 = -1 →
      (repl_begin parent state).2 = (parent, state)) ∧
    ((repl_begin parent state).1 = 0 →
      (repl_begin parent state).2.1 =
        { parent with status := .STATUS_REPLICATING } ∧
      (repl_begin parent state).2.2.progress = 0 ∧
      (repl_begin parent state).2.2.ticks_total = 200 ∧
      (repl_begin parent state).2.2.consciousness_forked = false) := by
  unfold repl_begin repl_check_resources
  by_cases h1 : parent.status = .STATUS_REPLICATING
  · simp [h1]
  · by_cases h2 : ∃ r, parent.resources r < REPL_COSTS r
    · simp [h1, h2]
    · push_neg at h2
      simp [h1, h2, REPL_BASE_TICKS]

/-- Witness for C5 at a concrete ACTIVE probe holding exactly the cost
vector: beginning replication succeeds and initializes the replication
state as characterized. -/
theorem repl_begin_characterization_witness :
    (repl_begin p_c5w state0).2.1 =
      { p_c5w with status := .STATUS_REPLICATING } ∧
    (repl_begin p_c5w state0).2.2.progress = 0 ∧
    (repl_begin p_c5w state0).2.2.ticks_total = 200 ∧
    (repl_begin p_c5w state0).2.2.consciousness_forked = false :=
  (repl_begin_characterization p_c5w state0).2.2.2
    (by with_unfolding_all decide)

/-- C6 counterexample: stored trust is clamped into [-1, 1], so a pair with
prior trust 0.9 updated by δ = 0.5 ends at 1, a change of 0.1 — not
"changed by exactly δ" as claimed. -/
theorem society_update_trust_counterexample :
    society_get_trust (society_update_trust p_c6a p_c6b 0.5).1 p_c6b.id ≠
      society_get_trust p_c6a p_c6b.id + 0.5 := by
  with_unfolding_all decide

theorem update_first_none_iff (b_id : probe_uid_t) (δ : ℚ) :
    ∀ l : List relationship_t, update_first b_id δ l = none ↔
      ∀ rel ∈ l, rel.other_id ≠ b_id := by
  intro l
  induction l with
  | nil => simp [update_first]
  | cons rel rest ih =>
    by_cases h : rel.other_id = b_id
    · simp [update_first, h]
    · simp [update_first, h, ih]

theorem update_first_find (b_id : probe_uid_t) (δ : ℚ) :
    ∀ l l2, update_first b_id δ l = some l2 →
      l2.find? (fun rel => rel.other_id = b_id) =
        (l.find? (fun rel => rel.other_id = b_id)).map
          (fun rel => apply_trust rel δ) := by
  intro l
  induction l with
  | nil => intro l2 h; simp [update_first] at h
  | cons rel rest ih =>
    intro l2 h
    by_cases hid : rel.other_id = b_id
    · simp [update_first, hid] at h
      subst h
      simp [List.find?_cons, hid, apply_trust]
    · simp [update_first, hid] at h
      obtain ⟨l3, h3, rfl⟩ := h
      simp [List.find?_cons, hid]
      exact ih l3 h3

theorem get_trust_after_side (a : probe_t) (b_id : probe_uid_t) (δ : ℚ) :
    society_get_trust (update_trust_side a b_id δ) b_id =
      if trust_can_update a b_id
      then clampf (society_get_trust a b_id + δ) (-1) 1
      else society_get_trust a b_id := by
  unfold update_trust_side
  cases hu : update_first b_id δ a.relationships with
  | some l2 =>
    have hex : ∃ rel ∈ a.relationships, rel.other_id = b_id := by
      by_contra hno
      push_neg at hno
      rw [(update_first_none_iff b_id δ a.relationships).mpr hno] at hu
      exact Option.noConfusion hu
    have hcan : trust_can_update a b_id := Or.inl hex
    rw [if_pos hcan]
    have hfind := update_first_find b_id δ a.relationships l2 hu
    obtain ⟨rel0, hmem, hrel0⟩ := hex
    have hsome : (a.relationships.find? (fun rel => rel.other_id = b_id)).isSome := by
      rw [List.find?_isSome]
      exact ⟨rel0, hmem, by simp [hrel0]⟩
    obtain ⟨relf, hrelf⟩ := Option.isSome_iff_exists.mp hsome
    simp [society_get_trust, hfind, hrelf, apply_trust]
  | none =>
    have hall : ∀ rel ∈ a.relationships, rel.other_id ≠ b_id :=
      (update_first_none_iff b_id δ a.relationships).mp hu
    have hfind0 : a.relationships.find? (fun rel => rel.other_id = b_id) = none := by
      rw [List.find?_eq_none]
      intro rel hmem
      simp [hall rel hmem]
    by_cases hlen : a.relationships.length < MAX_RELATIONSHIPS
    · have hcan : trust_can_update a b_id := Or.inr hlen
      rw [if_pos hcan]
      simp only [hlen, if_pos]
      simp [society_get_trust, List.find?_append, hfind0, apply_trust]
    · have hcan : ¬ trust_can_update a b_id := by
        intro hc
        cases hc with
        | inl hex =>
          obtain ⟨rel0, hmem, hrel0⟩ := hex
          exact hall rel0 hmem hrel0
        | inr h => exact hlen h
      rw [if_neg hcan]
      simp [hlen, society_get_trust]

/-- C6 amended: after `society_update_trust(A, B, δ)` the stored trust in
each direction equals `clamp(old + δ, -1, 1)` whenever a matching
relationship slot exists or the table has room (a missing slot is created at
trust 0); with a full table and no matching slot, that side is unchanged. -/
theorem society_update_trust_clamped (a b : probe_t) (δ : ℚ) :
    society_get_trust (society_update_trust a b δ).1 b.id =
      (if trust_can_update a b.id
       then clampf (society_get_trust a b.id + δ) (-1) 1
       else society_get_trust a b.id) ∧
    society_get_trust (society_update_trust a b δ).2 a.id =
      (if trust_can_update b a.id
       then clampf (society_get_trust b a.id + δ) (-1) 1
       else society_get_trust b a.id) :=
  ⟨get_trust_after_side a b.id δ, get_trust_after_side b a.id δ⟩

/-- C7, evaluating the code at the failing input: a solar flare that brings
hull integrity to 0 leaves the probe's status ACTIVE — no code path sets
STATUS_DESTROYED when hull reaches 0 — and a subsequent
`probe_execute_action` (a WAIT) still succeeds, contrary to the spec
invariant the claim states. -/
theorem hull_zero_probe_not_destroyed :
    (hazard_solar_flare p_c7 0).2.hull_integrity = 0 ∧
    (hazard_solar_flare p_c7 0).2.status = .STATUS_ACTIVE ∧
    (probe_execute_action sqrtOne (hazard_solar_flare p_c7 0).2 act_wait
      sys_empty ss_idle).1.success = true := by
  with_unfolding_all decide

/-- C8, evaluating the code at the failing input: `run_pipe_mode` emits
observations in probe-table index order and replication appends children
with freshly generated random UIDs, so after two replications whose
`generate_uid` draws come out decreasing (as they do from the xoshiro state
seeded with 1), the emitted sequence is not UID-ascending, contrary to the
spec's "MUST be emitted in UID-ascending probe order". -/
theorem pipe_observation_order_not_uid_sorted :
    pipe_observation_order uni_c8 =
      [⟨1, 1⟩, (generate_uid (rng_seed 1)).1,
       (generate_uid (generate_uid (rng_seed 1)).2).1] ∧
    ¬ uid_ascending (pipe_observation_order uni_c8) := by
  decide

/-- C9: `comm_send_targeted` is atomic on failure — it returns only -1 or 0;
on -1 (table full, energy below 1000 J, or target unreachable directly and
by relay) the message table and the sender are unchanged; on 0 exactly one
message is appended and exactly 1000 J is deducted from the sender, which is
otherwise unchanged.  Quantified over the abstracted square root and
reachability computation, both pure in the source. -/
theorem comm_send_targeted_atomic (sq : ℚ → ℚ)
    (check_reachable : comm_system_t → probe_t → vec3_t → ℚ)
    (cs : comm_system_t) (sender : probe_t) (target_id : probe_uid_t)
    (target_pos : vec3_t) (content : String) (tick : ℕ) :
    ((comm_send_targeted sq check_reachable cs sender target_id target_pos
        content tick).1 = -1 ∨
     (comm_send_targeted sq check_reachable cs sender target_id target_pos
        content tick).1 = 0) ∧
    ((comm_send_targeted sq check_reachable cs sender target_id target_pos
        content tick).1 = -1 →
      (comm_send_targeted sq check_reachable cs sender target_id target_pos
        content tick).2.1 = cs ∧
      (comm_send_targeted sq check_reachable cs sender target_id target_pos
        content tick).2.2 = sender) ∧
    ((comm_send_targeted sq check_reachable cs sender target_id target_pos
        content tick).1 = 0 →
      (comm_send_targeted sq check_reachable cs sender target_id target_pos
        content tick).2.1.messages =
        cs.messages ++
          [{ sender_id := sender.id, target_id := target_id,
             mode := .MSG_TARGETED,
             content := content.take (MAX_MSG_CONTENT - 1),
             sent_tick := tick,
             arrival_tick := tick +
               comm_light_delay (vec3_dist sq sender.destination target_pos),
             status := .MSG_IN_TRANSIT,
             distance_ly := vec3_dist sq sender.destination target_pos }] ∧
      (comm_send_targeted sq check_reachable cs sender target_id target_pos
        content tick).2.2 =
        { sender with
            energy_joules := sender.energy_joules - COMM_ENERGY_TARGETED }) := by
  unfold comm_send_targeted
  split_ifs with h1 h2
  · simp
  · simp
  · by_cases h3 : check_reachable cs sender target_pos < 0
    · simp [h3]
    · simp [h3]

/-- C3 counterexample: the claim's preconditions (hull/fuel/energy/resources
bounds alone) are not preserved by every action on every probe — a LANDED
probe with `mining_rate = -1` executing MINE on an iron-rich planet drives
its iron pool to -10.  (The square-root stand-in is exact here: the planet
mass is 1.) -/
theorem core_op_invariant_counterexample :
    probe_inv p_c3 ∧
    ¬ probe_inv
        (apply_core_op sqrtOne (.op_action act_mine sys_mine ss_idle) p_c3) := by
  with_unfolding_all decide

theorem hazard_solar_flare_inv (p : probe_t) (s : ℚ) (h : probe_inv p) :
    probe_inv (hazard_solar_flare p s).2 := by
  obtain ⟨h0, h1, hf, he, hr⟩ := h
  unfold hazard_solar_flare
  refine ⟨?_, ?_, hf, he, hr⟩ <;> dsimp only <;> split_ifs <;> linarith

theorem hazard_asteroid_inv (p : probe_t) (s : ℚ) (hs : 0 ≤ s)
    (h : probe_inv p) : probe_inv (hazard_asteroid p s).2 := by
  obtain ⟨h0, h1, hf, he, hr⟩ := h
  unfold hazard_asteroid
  refine ⟨?_, ?_, hf, he, hr⟩ <;> dsimp only <;> split_ifs <;> linarith

theorem hazard_radiation_inv (p : probe_t) (s : ℚ) (h : probe_inv p) :
    probe_inv (hazard_radiation p s).2 := by
  obtain ⟨h0, h1, hf, he, hr⟩ := h
  exact ⟨h0, h1, hf, he, hr⟩

theorem probe_tick_energy_inv (p : probe_t) (h : probe_inv p) :
    probe_inv (probe_tick_energy p) := by
  obtain ⟨h0, h1, hf, he, hr⟩ := h
  have hH := hr .RES_HYDROGEN
  unfold probe_tick_energy
  dsimp only
  split_ifs
  all_goals refine ⟨h0, h1, ?_, ?_, ?_⟩
  all_goals try dsimp only at *
  all_goals try exact hr
  all_goals try linarith
  all_goals intro r
  all_goals unfold updRes
  all_goals split_ifs
  all_goals try exact hr r
  all_goals linarith [hr r]

theorem repl_tick_inv (p : probe_t) (st : replication_state_t)
    (h : probe_inv p) : probe_inv (repl_tick p st).2.1 := by
  obtain ⟨h0, h1, hf, he, hr⟩ := h
  unfold repl_tick
  dsimp only
  split_ifs
  all_goals refine ⟨h0, h1, hf, he, ?_⟩
  all_goals try exact hr
  all_goals intro r
  all_goals dsimp only
  all_goals split_ifs
  all_goals try linarith [hr r]

set_option maxHeartbeats 2000000 in
theorem travel_tick_inv (sq : ℚ → ℚ) (p : probe_t) (r : rng_t)
    (h : probe_inv p) : probe_inv (travel_tick sq p r).2.1 := by
  obtain ⟨h0, h1, hf, he, hr⟩ := h
  have hdmg : (0 : ℚ) ≤ MICROMETEORITE_DMG := by norm_num [MICROMETEORITE_DMG]
  by_cases hst : p.status ≠ .STATUS_TRAVELING
  · simp only [travel_tick, if_pos hst]
    exact ⟨h0, h1, hf, he, hr⟩
  · by_cases hfc : p.fuel_kg <
        p.speed_c / (TICKS_PER_CYCLE : ℚ) * FUEL_BURN_PER_LY_KG
    · simp only [travel_tick, if_neg hst, if_pos hfc]
      exact ⟨h0, h1, le_refl 0, he, hr⟩
    · simp only [travel_tick, if_neg hst, if_neg hfc]
      split_ifs
      all_goals refine ⟨?_, ?_, ?_, ?_, ?_⟩
      all_goals try exact hr
      all_goals try dsimp only at *
      all_goals try linarith

theorem exec_enter_orbit_inv (sq : ℚ → ℚ) (p : probe_t) (a : action_t)
    (sys : system_t) (h : probe_inv p) :
    probe_inv (exec_enter_orbit sq p a sys).2 := by
  obtain ⟨h0, h1, hf, he, hr⟩ := h
  unfold exec_enter_orbit
  split_ifs with hloc
  · exact ⟨h0, h1, hf, he, hr⟩
  · cases hfp : find_planet sys a.target_body with
    | none => exact ⟨h0, h1, hf, he, hr⟩
    | some body =>
      dsimp only
      split_ifs
      · exact ⟨h0, h1, hf, he, hr⟩
      all_goals refine ⟨h0, h1, ?_, ?_, hr⟩
      all_goals dsimp only
      all_goals linarith

theorem exec_land_inv (sq : ℚ → ℚ) (p : probe_t) (a : action_t)
    (sys : system_t) (h : probe_inv p) :
    probe_inv (exec_land sq p a sys).2 := by
  obtain ⟨h0, h1, hf, he, hr⟩ := h
  unfold exec_land
  split_ifs with hloc
  · exact ⟨h0, h1, hf, he, hr⟩
  · dsimp only
    cases hb1 : (match find_planet sys a.target_body with
      | none => find_planet sys p.body_id
      | some b => some b) with
    | none => exact ⟨h0, h1, hf, he, hr⟩
    | some body =>
      dsimp only
      split_ifs
      · exact ⟨h0, h1, hf, he, hr⟩
      · exact ⟨h0, h1, hf, he, hr⟩
      all_goals refine ⟨h0, h1, ?_, ?_, hr⟩
      all_goals dsimp only
      all_goals linarith

theorem exec_launch_inv (sq : ℚ → ℚ) (p : probe_t) (sys : system_t)
    (h : probe_inv p) : probe_inv (exec_launch sq p sys).2 := by
  obtain ⟨h0, h1, hf, he, hr⟩ := h
  unfold exec_launch
  dsimp only
  split_ifs
  all_goals try exact ⟨h0, h1, hf, he, hr⟩
  all_goals refine ⟨h0, h1, ?_, ?_, hr⟩
  all_goals dsimp only
  all_goals linarith

theorem exec_navigate_to_body_inv (p : probe_t) (a : action_t)
    (sys : system_t) (h : probe_inv p) :
    probe_inv (exec_navigate_to_body p a sys).2 := by
  obtain ⟨h0, h1, hf, he, hr⟩ := h
  have hc : (0 : ℚ) ≤ FUEL_NAVIGATE_BASE := by norm_num [FUEL_NAVIGATE_BASE]
  unfold exec_navigate_to_body
  split_ifs with hloc
  · exact ⟨h0, h1, hf, he, hr⟩
  · cases hfp : find_planet sys a.target_body with
    | none => exact ⟨h0, h1, hf, he, hr⟩
    | some body =>
      dsimp only
      split_ifs
      · exact ⟨h0, h1, hf, he, hr⟩
      all_goals refine ⟨h0, h1, ?_, ?_, hr⟩
      all_goals dsimp only
      all_goals linarith

theorem exec_survey_inv (p : probe_t) (a : action_t) (sys : system_t)
    (ss : survey_state_t) (h : probe_inv p) :
    probe_inv (exec_survey p a sys ss).2.1 := by
  obtain ⟨h0, h1, hf, he, hr⟩ := h
  unfold exec_survey
  dsimp only
  cases hb1 : (match find_planet sys a.target_body with
    | none => find_planet sys p.body_id
    | some b => some b) with
  | none => exact ⟨h0, h1, hf, he, hr⟩
  | some body =>
    dsimp only
    split_ifs
    all_goals refine ⟨h0, h1, hf, ?_, hr⟩
    all_goals dsimp only
    all_goals linarith

theorem exec_wait_inv (p : probe_t) (h : probe_inv p) :
    probe_inv (exec_wait p).2 := by
  obtain ⟨h0, h1, hf, he, hr⟩ := h
  unfold exec_wait
  dsimp only
  split_ifs
  all_goals refine ⟨h0, h1, hf, ?_, hr⟩
  all_goals dsimp only
  all_goals linarith

theorem exec_repair_inv (p : probe_t) (h : probe_inv p) :
    probe_inv (exec_repair p).2 := by
  obtain ⟨h0, h1, hf, he, hr⟩ := h
  have hi := hr .RES_IRON
  unfold exec_repair
  dsimp only
  split_ifs
  all_goals try exact ⟨h0, h1, hf, he, hr⟩
  all_goals refine ⟨?_, ?_, hf, ?_, ?_⟩
  all_goals try dsimp only at *
  all_goals try linarith
  all_goals intro r
  all_goals unfold updRes
  all_goals split_ifs
  all_goals try exact hr r
  all_goals linarith

theorem exec_mine_inv (sq : ℚ → ℚ) (hsq : ∀ x, 0 < x → 0 < sq x)
    (p : probe_t) (a : action_t) (sys : system_t)
    (hmine : 0 ≤ p.mining_rate) (h : probe_inv p) :
    probe_inv (exec_mine sq p a sys).2.1 := by
  obtain ⟨h0, h1, hf, he, hr⟩ := h
  unfold exec_mine
  by_cases hloc : p.location_type ≠ .LOC_LANDED
  · rw [if_pos hloc]
    exact ⟨h0, h1, hf, he, hr⟩
  · rw [if_neg hloc]
    cases hfp : find_planet sys p.body_id with
    | none => exact ⟨h0, h1, hf, he, hr⟩
    | some body =>
      dsimp only
      cases hres : resource_ofInt a.target_resource with
      | none => exact ⟨h0, h1, hf, he, hr⟩
      | some res =>
        dsimp only
        by_cases hab : body.resources res ≤ 0.001
        · rw [if_pos hab]
          exact ⟨h0, h1, hf, he, hr⟩
        · rw [if_neg hab]
          by_cases hen : p.energy_joules < ENERGY_MINE_PER_TICK
          · rw [if_pos hen]
            exact ⟨h0, h1, hf, he, hr⟩
          · rw [if_neg hen]
            push_neg at hab hen
            have hsqpos : 0 < sq (maxQ body.mass_earth 0.1) := by
              apply hsq
              unfold maxQ
              split_ifs with hm
              · linarith
              · norm_num
            have habpos : (0 : ℚ) < body.resources res := by nlinarith
            have hyield : 0 ≤ MINING_BASE_RATE * p.mining_rate *
                body.resources res * (1 / sq (maxQ body.mass_earth 0.1)) := by
              have hb : (0 : ℚ) ≤ MINING_BASE_RATE := by
                norm_num [MINING_BASE_RATE]
              have hinv : (0 : ℚ) ≤ 1 / sq (maxQ body.mass_earth 0.1) :=
                le_of_lt (by positivity)
              exact mul_nonneg (mul_nonneg (mul_nonneg hb hmine)
                (le_of_lt habpos)) hinv
            refine ⟨h0, h1, hf, ?_, ?_⟩
            · dsimp only
              linarith
            · intro r
              dsimp only
              unfold updRes
              split_ifs with hri
              · have := hr res
                linarith
              · exact hr r

theorem probe_execute_action_inv (sq : ℚ → ℚ)
    (hsq : ∀ x, 0 < x → 0 < sq x) (p : probe_t) (a : action_t)
    (sys : system_t) (ss : survey_state_t) (hmine : 0 ≤ p.mining_rate)
    (h : probe_inv p) : probe_inv (probe_execute_action sq p a sys ss).2.1 := by
  unfold probe_execute_action
  split_ifs with hdead
  · exact h
  · cases a.type with
    | ACT_ENTER_ORBIT => exact exec_enter_orbit_inv sq p a sys h
    | ACT_LAND => exact exec_land_inv sq p a sys h
    | ACT_LAUNCH => exact exec_launch_inv sq p sys h
    | ACT_NAVIGATE_TO_BODY => exact exec_navigate_to_body_inv p a sys h
    | ACT_SURVEY => exact exec_survey_inv p a sys ss h
    | ACT_MINE => exact exec_mine_inv sq hsq p a sys hmine h
    | ACT_WAIT => exact exec_wait_inv p h
    | ACT_REPAIR => exact exec_repair_inv p h
    | ACT_UNKNOWN => exact h

/-- C3 amended: every core per-tick operation — action execution, travel
tick, replication tick, fusion/energy tick, hazard effect — preserves
`0 ≤ hull ≤ 1`, `fuel ≥ 0`, `energy ≥ 0` and `resources[r] ≥ 0`, provided
additionally that the probe's `mining_rate` is nonnegative and the asteroid
hazard's severity is nonnegative (both true of everything the simulation
constructs; the data model declares severity ∈ [0,1]). -/
theorem core_ops_preserve_invariants (sq : ℚ → ℚ)
    (hsq : ∀ x, 0 < x → 0 < sq x) (op : core_op) (p : probe_t)
    (hmine : 0 ≤ p.mining_rate) (hwf : core_op_wf op)
    (hinv : probe_inv p) : probe_inv (apply_core_op sq op p) := by
  cases op with
  | op_action a sys ss =>
    exact probe_execute_action_inv sq hsq p a sys ss hmine hinv
  | op_travel r => exact travel_tick_inv sq p r hinv
  | op_repl st => exact repl_tick_inv p st hinv
  | op_energy => exact probe_tick_energy_inv p hinv
  | op_flare s => exact hazard_solar_flare_inv p s hinv
  | op_asteroid s => exact hazard_asteroid_inv p s hwf hinv
  | op_radiation s => exact hazard_radiation_inv p s hinv

/-- Witness for C3 at a concrete probe and operation (an asteroid hazard of
severity 0.5 on the default probe), with every hypothesis discharged
concretely. -/
theorem core_ops_preserve_invariants_witness :
    (∀ x : ℚ, 0 < x → 0 < sqrtOne x) ∧
    (0 : ℚ) ≤ probe_zero.mining_rate ∧
    core_op_wf (.op_asteroid 0.5) ∧
    probe_inv probe_zero ∧
    probe_inv (apply_core_op sqrtOne (.op_asteroid 0.5) probe_zero) :=
  ⟨fun _ _ => by norm_num [sqrtOne],
   by with_unfolding_all decide,
   by norm_num [core_op_wf],
   by with_unfolding_all decide,
   core_ops_preserve_invariants sqrtOne (fun _ _ => by norm_num [sqrtOne])
     (.op_asteroid 0.5) probe_zero (by with_unfolding_all decide)
     (by norm_num [core_op_wf]) (by with_unfolding_all decide)⟩

/-- Witness for C9 at a concrete sender with 2000 J, an empty message table
and a reachable target: the send succeeds, enqueues exactly one message and
deducts exactly 1000 J. -/
theorem comm_send_targeted_atomic_witness :
    (comm_send_targeted sqrtOne reach0 cs0 sender0 ⟨2, 2⟩ ⟨0, 0, 0⟩ "hello"
        7).2.1.messages =
      cs0.messages ++
        [{ sender_id := sender0.id, target_id := ⟨2, 2⟩,
           mode := .MSG_TARGETED,
           content := "hello".take (MAX_MSG_CONTENT - 1),
           sent_tick := 7,
           arrival_tick := 7 +
             comm_light_delay (vec3_dist sqrtOne sender0.destination ⟨0, 0, 0⟩),
           status := .MSG_IN_TRANSIT,
           distance_ly := vec3_dist sqrtOne sender0.destination ⟨0, 0, 0⟩ }] ∧
    (comm_send_targeted sqrtOne reach0 cs0 sender0 ⟨2, 2⟩ ⟨0, 0, 0⟩ "hello"
        7).2.2 =
      { sender0 with
          energy_joules := sender0.energy_joules - COMM_ENERGY_TARGETED } :=
  (comm_send_targeted_atomic sqrtOne reach0 cs0 sender0 ⟨2, 2⟩ ⟨0, 0, 0⟩
    "hello" 7).2.2 (by with_unfolding_all decide)
